import Mathlib

/-!
OrviboS20 protocol engine: embedding and verified properties.

Shallow embedding of `src/src/OrviboS20.cpp` and `src/src/OrviboS20.h`.

Conventions of the embedding.

* A byte (`uint8_t`) is a `Fin 256`; wider machine integers are `Nat` reduced
  explicitly modulo `2^16` or `2^32`; `int m_last_state` is an `Int`.
* `millis()` is a parameter `clock : Nat` (milliseconds since boot, unbounded);
  the value the code sees is `millis clock = clock % 2^32`.  On the ESP8266
  target `unsigned int`, `unsigned long` and `size_t` are all 32 bits wide.
* The linked list of devices kept by `SharedData` is a `List OrviboS20Device`
  in link order; a device pointer is its index in that list.
* A `std::function` member is a `Bool`: `true` when a callback is installed.
  A callback is an observer: it does not touch the engine's data.  Each
  notification point of the source appends one entry to a log; the entry
  records whether an installed callback received it (`delivered`).
* Calling an empty `std::function` aborts the program; functions that can reach
  such a call report it in a `fault` flag together with the data as it stood
  when execution stopped.
-/

namespace OrviboS20

/-! ## Types and constants -/

/-- Unsigned 8-bit value (`uint8_t`). -/
abbrev Byte := Fin 256

/-- Truncating conversion to `uint8_t`. -/
def u8 (n : Nat) : Byte := ⟨n % 256, Nat.mod_lt n (by decide)⟩

/-- Truncating conversion to `uint16_t`. -/
def u16 (n : Nat) : Nat := n % 65536

/-- Six-byte hardware address, `uint8_t m_mac[6]`. -/
structure Mac where
  b0 : Byte
  b1 : Byte
  b2 : Byte
  b3 : Byte
  b4 : Byte
  b5 : Byte
deriving DecidableEq, Repr

/-- Bytes of an address in memory order. -/
def Mac.toList (m : Mac) : List Byte := [m.b0, m.b1, m.b2, m.b3, m.b4, m.b5]

def MAX_ORVIBO_DEVICES : Nat := 10

def ORVIBO_UDP_PORT : Nat := 10000

def ORVIBO_HEADER_LEN : Nat := 2 + 2 + 2 + 6 + 6

def ORVIBO_MAGIC : List Byte := [0x68, 0x64]

def CMD_SUBSCRIBE : Nat := 0x636C

def CMD_SET_STATE : Nat := 0x6463

def CMD_DISCOVER : Nat := 0x7161

def CMD_STATE_CHANGE : Nat := 0x7366

def MAC_PADDING : List Byte := [0x20, 0x20, 0x20, 0x20, 0x20, 0x20]

def ZERO_MAC : Mac := ⟨0x00, 0x00, 0x00, 0x00, 0x00, 0x00⟩

def SUBSCRIBE_INTERVAL_MS : Nat := 1000 * 60

def CONNECTION_TMO_MS : Nat := 1000 * 150

def CHECK_TMO_INTERVAL_MS : Nat := 1000 * 10

/-- Value returned by `millis()`: a 32-bit unsigned counter of milliseconds. -/
def millis (clock : Nat) : Nat := clock % 2 ^ 32

/-- Subtraction of 32-bit unsigned integers, as in `millis() - m_last_rx_time`. -/
def sub32 (a b : Nat) : Nat := (a % 2 ^ 32 + (2 ^ 32 - b % 2 ^ 32)) % 2 ^ 32

/-- Notification raised by a device object. -/
inductive Notification where
  | connect : Notification
  | disconnect : Notification
  | stateChange (state : Bool) : Notification
deriving DecidableEq, Repr

/-- One notification point reached; `delivered` tells whether a callback was
installed to receive it (the `if (m_..._callback)` guard of the source). -/
structure Fired where
  what : Notification
  delivered : Bool
deriving DecidableEq, Repr

/-- Data members of `class OrviboS20Device` (the name and the link are left to
the enclosing list). -/
structure OrviboS20Device where
  m_ip : Nat := 0
  m_mac : Mac := ZERO_MAC
  m_any_mac : Bool
  m_last_state : Int := -1
  m_connected : Bool := false
  m_last_rx_time : Nat := 0
  m_connect_callback : Bool := false
  m_disconnect_callback : Bool := false
  m_state_change_callback : Bool := false
deriving DecidableEq, Repr

/-- Datagram written to or read from the UDP socket. -/
structure Datagram where
  ip : Nat
  port : Nat
  bytes : List Byte
deriving DecidableEq, Repr

/-! ## OrviboS20Device -/

/-- Static `reverse(dst, src, len)`: `dst[len - i - 1] = src[i]` for `i < len`. -/
def reverse (dst src : List Byte) (len : Nat) : List Byte :=
  (List.range len).foldl (fun d i => d.set (len - i - 1) (src.getD i 0)) dst

/-- Constructor `OrviboS20Device(name)`: an any-MAC device. -/
def OrviboS20Device.anyMac : OrviboS20Device := { m_any_mac := true }

/-- Constructor `OrviboS20Device(mac, name)`. -/
def OrviboS20Device.withMac (mac : Mac) : OrviboS20Device :=
  { m_any_mac := false, m_mac := mac }

/-- Walk of `SharedData::addDeviceToList`: the device is linked after the last one. -/
def addDeviceToList : List OrviboS20Device → OrviboS20Device → List OrviboS20Device
  | [], dev => [dev]
  | d :: rest, dev => d :: addDeviceToList rest dev

/-- Method `OrviboS20Device::updateConnectState`. -/
def updateConnectState (d : OrviboS20Device) (connected : Bool) :
    OrviboS20Device × List Fired :=
  if connected = d.m_connected then (d, [])
  else
    let d1 := { d with m_connected := connected }
    if connected then (d1, [⟨Notification.connect, d.m_connect_callback⟩])
    else (d1, [⟨Notification.disconnect, d.m_disconnect_callback⟩])

/-- Method `OrviboS20Device::sendCommand`: the datagram handed to the socket.
Only the first `length` bytes of `payload` are written. -/
def sendCommand (d : OrviboS20Device) (command : Nat) (payload : List Byte)
    (length : Nat) : Datagram :=
  let tot_len := u16 (ORVIBO_HEADER_LEN + length)
  { ip := d.m_ip
    port := ORVIBO_UDP_PORT
    bytes := ORVIBO_MAGIC ++ [u8 (tot_len >>> 8), u8 tot_len]
      ++ [u8 (command >>> 8), u8 command]
      ++ d.m_mac.toList ++ MAC_PADDING ++ payload.take length }

/-- Method `OrviboS20Device::subscribe`.  The local `payload[12]` starts out
uninitialised; `junk` is its content on entry. -/
def subscribe (d : OrviboS20Device) (junk : Fin 12 → Byte) : Datagram :=
  let payload0 := List.ofFn junk
  let payload1 := reverse payload0 d.m_mac.toList 6
  let payload2 := payload1.take 6 ++ MAC_PADDING.take 6 ++ payload1.drop 12
  sendCommand d CMD_SUBSCRIBE payload2 12

/-- Method `OrviboS20Device::setState`: four zero bytes and the state byte. -/
def setState (d : OrviboS20Device) (state : Bool) : Datagram :=
  let payload : List Byte := [0, 0, 0, 0, if state then 1 else 0]
  sendCommand d CMD_SET_STATE payload 5

/-- Method `OrviboS20Device::getState`. -/
def getState (d : OrviboS20Device) : Bool := decide (d.m_last_state = 1)

/-- Method `OrviboS20Device::checkConnectTimeout`. -/
def checkConnectTimeout (d : OrviboS20Device) (clock : Nat) :
    OrviboS20Device × List Fired :=
  if d.m_connected then
    if sub32 (millis clock) d.m_last_rx_time > CONNECTION_TMO_MS then
      updateConnectState d false
    else (d, [])
  else (d, [])

/-- Method `OrviboS20Device::handlePacket`.  `payload` is the memory from the
payload pointer on; `length` is the `size_t` passed along with it. -/
def handlePacket (d : OrviboS20Device) (clock : Nat) (command : Nat)
    (payload : List Byte) (length : Nat) : OrviboS20Device × List Fired :=
  let d1 := { d with m_last_rx_time := millis clock }
  let r := updateConnectState d1 true
  let d2 := r.1
  if command = CMD_STATE_CHANGE then
    if length = 5 then
      let new_state : Int := ((payload.getD 4 0).val : Int)
      if new_state ≠ d2.m_last_state then
        ({ d2 with m_last_state := new_state },
          r.2 ++ [⟨Notification.stateChange (decide (new_state ≠ 0)),
                    d2.m_state_change_callback⟩])
      else (d2, r.2)
    else (d2, r.2)
  else (d2, r.2)

/-! ## OrviboS20Class -/

/-- Everything `OrviboS20Class::checkRxPacket` reads or writes: the callback
member of `OrviboS20Class`, the function-local statics of `checkIfNewDevice`
(the first `known_orvibo_mac_count` rows of `known_orvibo_mac_list`, so the
count is the length of the list) and the device list of `SharedData`. -/
structure Engine where
  m_started : Bool := true
  m_found_device_callback : Bool
  known_orvibo_mac_list : List Mac
  m_device_list : List OrviboS20Device
deriving DecidableEq, Repr

/-- Notification raised while a datagram is processed. -/
inductive EngineFired where
  | foundDevice (mac : Mac) (delivered : Bool) : EngineFired
  | device (index : Nat) (f : Fired) : EngineFired
deriving DecidableEq, Repr

/-- Result of one call: the data afterwards, the notifications raised in order,
and whether the call stopped at a call of an empty `std::function`. -/
structure Outcome where
  state : Engine
  fired : List EngineFired
  fault : Bool
deriving DecidableEq, Repr

/-- Search loop of `checkIfNewDevice`: `memcmp` of `mac` against each stored row. -/
def knownMac (mac : Mac) : List Mac → Bool
  | [] => false
  | m :: rest => if m = mac then true else knownMac mac rest

/-- Method `OrviboS20Class::checkIfNewDevice`.  The callback is called without
a check that one is installed. -/
def checkIfNewDevice (s : Engine) (mac : Mac) : Outcome :=
  if s.known_orvibo_mac_list.length ≥ MAX_ORVIBO_DEVICES then ⟨s, [], false⟩
  else if knownMac mac s.known_orvibo_mac_list then ⟨s, [], false⟩
  else
    let s1 := { s with known_orvibo_mac_list := s.known_orvibo_mac_list ++ [mac] }
    ⟨s1, [EngineFired.foundDevice mac s.m_found_device_callback],
      !s.m_found_device_callback⟩

/-- Frame fields computed by `checkRxPacket` before dispatch (lines 295-306):
the command, the offsets in `rx_buffer` that `src_mac` and `payload` point to,
and the `size_t` payload length (32 bits on the target). -/
structure Frame where
  cmd : Nat
  src_mac_off : Nat
  payload_off : Nat
  payload_length : Nat
deriving DecidableEq, Repr

/-- Read of `rx_buffer[i]`; the buffer holds the received bytes (cells past
them are not written by `udp.read`). -/
def rxByte (rx : List Byte) (i : Nat) : Byte := rx.getD i 0

/-- Six bytes of the buffer starting at `off`, as compared and copied by
`memcmp(..., 6)` and `memcpy(..., 6)`. -/
def readMac (rx : List Byte) (off : Nat) : Mac :=
  ⟨rxByte rx off, rxByte rx (off + 1), rxByte rx (off + 2),
    rxByte rx (off + 3), rxByte rx (off + 4), rxByte rx (off + 5)⟩

/-- Validation and field extraction of `checkRxPacket` (lines 283-306) on the
`len = rx.length` bytes read into `rx_buffer`; `none` is an early return. -/
def parseFrame (rx : List Byte) : Option Frame :=
  let len := rx.length
  if len < ORVIBO_HEADER_LEN ∨ rx.take 2 ≠ ORVIBO_MAGIC then none
  else
    let totlen := u16 (((rxByte rx 2).val <<< 8) ||| (rxByte rx 3).val)
    if totlen ≠ len then none
    else
      let cmd := u16 (((rxByte rx 4).val <<< 8) ||| (rxByte rx 5).val)
      let payload_length := len - ORVIBO_HEADER_LEN
      if cmd = CMD_DISCOVER then
        some ⟨cmd, 6 + 1, ORVIBO_HEADER_LEN + 1,
          (payload_length + (2 ^ 32 - 1)) % 2 ^ 32⟩
      else
        some ⟨cmd, 6, ORVIBO_HEADER_LEN, payload_length⟩

/-- Outcome of the device loop of `checkRxPacket`: the loop left by `break` at
a device (`iter` non-null), or run to the end with the value of `any_mac_dev`. -/
inductive LoopExit where
  | matched (iter : Nat) : LoopExit
  | finished (any_mac_dev : Option Nat) : LoopExit
deriving DecidableEq, Repr

/-- Device loop of `checkRxPacket` (lines 312-325) over the devices from index
`i` on, with the current `any_mac_dev`. -/
def deviceLoop (src_mac : Mac) :
    List OrviboS20Device → Nat → Option Nat → LoopExit
  | [], _, any_mac_dev => LoopExit.finished any_mac_dev
  | d :: rest, i, any_mac_dev =>
    if d.m_mac = src_mac then LoopExit.matched i
    else
      deviceLoop src_mac rest (i + 1)
        (if d.m_any_mac && any_mac_dev.isNone then some i else any_mac_dev)

/-- Apply a device method to the device at `i`, storing the device back and
tagging its notifications with `i`. -/
def onDevice (s : Engine) (i : Nat)
    (f : OrviboS20Device → OrviboS20Device × List Fired) :
    Engine × List EngineFired :=
  match s.m_device_list[i]? with
  | none => (s, [])
  | some d =>
    let r := f d
    ({ s with m_device_list := s.m_device_list.set i r.1 },
      r.2.map (EngineFired.device i))

/-- Method `OrviboS20Class::checkRxPacket`.  `pending` is the datagram waiting
in the socket, if any; `udp.read` copies at most 64 bytes of it. -/
def checkRxPacket (s : Engine) (clock : Nat) (pending : Option Datagram) : Outcome :=
  match pending with
  | none => ⟨s, [], false⟩
  | some pkt =>
    if pkt.bytes.length ≤ 0 then ⟨s, [], false⟩
    else
      let rx := pkt.bytes.take 64
      match parseFrame rx with
      | none => ⟨s, [], false⟩
      | some fr =>
        let src_mac := readMac rx fr.src_mac_off
        let payload := rx.drop fr.payload_off
        let o := checkIfNewDevice s src_mac
        if o.fault then o
        else
          match deviceLoop src_mac o.state.m_device_list 0 none with
          | LoopExit.matched iter =>
            let r := onDevice o.state iter (fun d =>
              handlePacket { d with m_ip := pkt.ip } clock fr.cmd payload
                fr.payload_length)
            ⟨r.1, o.fired ++ r.2, false⟩
          | LoopExit.finished (some any_mac_dev) =>
            let r := onDevice o.state any_mac_dev (fun d =>
              handlePacket { d with m_any_mac := false, m_mac := src_mac, m_ip := pkt.ip }
                clock fr.cmd payload fr.payload_length)
            ⟨r.1, o.fired ++ r.2, false⟩
          | LoopExit.finished none => ⟨o.state, o.fired, false⟩

/-- Datagrams processed one after the other by `checkRxPacket`, each at its own
clock value; processing ends at a fault. -/
def receiveAll (s : Engine) : List (Nat × Datagram) → Outcome
  | [] => ⟨s, [], false⟩
  | (clock, pkt) :: rest =>
    let o := checkRxPacket s clock (some pkt)
    if o.fault then o
    else
      let o2 := receiveAll o.state rest
      ⟨o2.state, o.fired ++ o2.fired, o2.fault⟩

/-! ## Frame validity -/

/-- Frame accepted by the checks of `checkRxPacket`, stated on the received
bytes: at least a header, the two magic bytes, and a big-endian length field
equal to the number of bytes received. -/
def ValidFrame (rx : List Byte) : Prop :=
  18 ≤ rx.length ∧ rxByte rx 0 = 0x68 ∧ rxByte rx 1 = 0x64 ∧
    256 * (rxByte rx 2).val + (rxByte rx 3).val = rx.length

instance (rx : List Byte) : Decidable (ValidFrame rx) := by
  unfold ValidFrame
  infer_instance

/-! ## Reading the notification log -/

/-- Log entry of a connect notification. -/
def Fired.isConnect (f : Fired) : Bool :=
  match f.what with
  | Notification.connect => true
  | _ => false

/-- Log entry of a disconnect notification. -/
def Fired.isDisconnect (f : Fired) : Bool :=
  match f.what with
  | Notification.disconnect => true
  | _ => false

/-- Log entry of a state-change notification. -/
def Fired.isStateChange (f : Fired) : Bool :=
  match f.what with
  | Notification.stateChange _ => true
  | _ => false

/-! ## Sequences of calls on one device -/

/-- Call made on a device by the engine: a received packet handed to
`handlePacket`, or a timeout sweep calling `checkConnectTimeout`. -/
inductive DeviceCall where
  | packet (clock : Nat) (command : Nat) (payload : List Byte) (length : Nat) : DeviceCall
  | sweep (clock : Nat) : DeviceCall
deriving DecidableEq, Repr

/-- Effect of one call. -/
def DeviceCall.run (d : OrviboS20Device) : DeviceCall → OrviboS20Device × List Fired
  | DeviceCall.packet clock command payload length =>
    handlePacket d clock command payload length
  | DeviceCall.sweep clock => checkConnectTimeout d clock

/-- One executed call with the device before and after it and what it raised. -/
structure CallStep where
  call : DeviceCall
  before : OrviboS20Device
  after : OrviboS20Device
  fired : List Fired

/-- Steps of a sequence of calls executed in order from device `d`. -/
def callTrace (d : OrviboS20Device) : List DeviceCall → List CallStep
  | [] => []
  | c :: rest =>
    ⟨c, d, (c.run d).1, (c.run d).2⟩ :: callTrace (c.run d).1 rest

/-- Whole log of a sequence of calls executed in order from device `d`. -/
def callLog (d : OrviboS20Device) (calls : List DeviceCall) : List Fired :=
  ((callTrace d calls).map (fun t => t.fired)).flatten

/-! ## Registry invariant -/

/-- No two bound (non-wildcard) entries of the device list carry the same MAC. -/
def NoDuplicateBound (l : List OrviboS20Device) : Prop :=
  ∀ (i j : Nat) (a b : OrviboS20Device), i ≠ j → l[i]? = some a → l[j]? = some b →
    a.m_any_mac = false → b.m_any_mac = false → a.m_mac ≠ b.m_mac

/-! ## Example data -/

/-- Example frame: a 23-byte state-change frame sent by `mac` from address 1,
carrying state byte `st`. -/
def stateChangeFrame (mac : Mac) (st : Byte) : Datagram :=
  ⟨1, 10000, [0x68, 0x64, 0x00, 0x17, 0x73, 0x66] ++ mac.toList ++ MAC_PADDING
    ++ [0, 0, 0, 0, st]⟩

/-- Example engine: found-device callback installed, empty known-MAC list, the
given devices registered in order. -/
def engineWith (devices : List OrviboS20Device) : Engine :=
  { m_found_device_callback := true
    known_orvibo_mac_list := []
    m_device_list := devices }

/-! ## Found-device log and timeout sweep -/

/-- MACs of the found-device notifications of a log, in order. -/
def foundMacs : List EngineFired → List Mac
  | [] => []
  | EngineFired.foundDevice mac _ :: rest => mac :: foundMacs rest
  | EngineFired.device _ _ :: rest => foundMacs rest

/-- Timeout loop of `OrviboS20Class::handle` (lines 378-383) over the devices
from index `i` on: `checkConnectTimeout` on each device in list order. -/
def checkTimeoutsLoop (clock : Nat) :
    List OrviboS20Device → Nat → List OrviboS20Device × List EngineFired
  | [], _ => ([], [])
  | d :: rest, i =>
    let r := checkConnectTimeout d clock
    let q := checkTimeoutsLoop clock rest (i + 1)
    (r.1 :: q.1, r.2.map (EngineFired.device i) ++ q.2)

/-- Timeout sweep of `OrviboS20Class::handle` on the whole engine.  Every
callback it can reach is guarded, so it cannot fault. -/
def checkTimeouts (s : Engine) (clock : Nat) : Outcome :=
  let r := checkTimeoutsLoop clock s.m_device_list 0
  ⟨{ s with m_device_list := r.1 }, r.2, false⟩

end OrviboS20

/-!
OrviboS20WiFiPair: embedding of `src/src/OrviboS20WiFiPair.cpp` and
`src/src/OrviboS20WiFiPair.h`.

The WiFi driver, the UDP socket and the clock are the environment of a tick
(`Env`): what `millis()`, `m_udp.parsePacket()`/`read()`, `WiFi.scanComplete()`,
`WiFi.SSID(i)`/`WiFi.BSSID(i)`, `WiFi.isConnected()` and `WiFi.BSSID()` return
during that tick.  Calls that act on the environment and notification points are
logged as `Action`s in program order; a notification entry records whether its
callback is installed (`delivered`), as in the engine above.
-/

namespace OrviboS20WiFiPair

open OrviboS20 (Mac millis sub32)

/-! ## Types and constants of the pairing machine -/

def GLOBAL_TIMEOUT_S : Int := 60

def CONNECT_TIMEOUT_S : Int := 10

def COMMAND_TIMEOUT_S : Int := 3

def WIWO_S20_SSID : String := "WiWo-S20"

def UDP_PORT : Nat := 48899

/-- Enumeration `OrviboStopReason`. -/
inductive OrviboStopReason where
  | REASON_TIMEOUT : OrviboStopReason
  | REASON_COMMAND_FAILED : OrviboStopReason
  | REASON_STOPPED_BY_USER : OrviboStopReason
  | REASON_PAIRING_SUCCESSFUL : OrviboStopReason
deriving DecidableEq, Repr

/-- Enumeration `OrviboS20WiFiPairClass::State`. -/
inductive State where
  | S_STOPPED : State
  | S_IDLE : State
  | S_SCAN : State
  | S_CONNECT : State
  | S_SEND_COMMANDS : State
  | S_PAIRING_COMPLETE : State
  | S_COMMAND_FAILED : State
  | S_TIMEOUT : State
deriving DecidableEq, Repr

/-- Enumeration `PacketType`. -/
inductive PacketType where
  | PKT_NONE : PacketType
  | PKT_OK : PacketType
  | PKT_ERROR : PacketType
  | PKT_UNKNOWN : PacketType
deriving DecidableEq, Repr

/-! Enumeration `CommandId`; the code does integer arithmetic on it, so a
command id is a `Nat`. -/

def CMD_FIRST : Nat := 0

def CMD_ASSISTTHREAD : Nat := CMD_FIRST

def CMD_SSID : Nat := 1

def CMD_KEY : Nat := 2

def CMD_MODE : Nat := 3

def CMD_Z : Nat := 4

def CMD_LAST : Nat := 5

/-- Text of the identify command. -/
def TXT_ASSISTTHREAD : String := "HF-A11ASSISTHREAD"

/-- Text of the commit/reset command. -/
def TXT_Z : String := "AT+Z\r"

/-- Text of the set-station-mode command. -/
def TXT_MODE : String := "AT+WMODE=STA\r"

/-- Acknowledgment sent back for the greeting of the device. -/
def TXT_ACK : String := "+ok"

/-- Call on the environment or notification point, in program order. -/
inductive Action where
  | sendString (str : String) : Action
  | sendingCommand (cmd : String) (delivered : Bool) : Action
  | wifiDisconnect : Action
  | wifiScanNetworks : Action
  | wifiBegin (ssid : String) : Action
  | udpBegin : Action
  | udpStop : Action
  | foundDevice (bssid : Mac) (delivered : Bool) : Action
  | success (bssid : Mac) (delivered : Bool) : Action
  | stopped (reason : OrviboStopReason) (delivered : Bool) : Action
deriving DecidableEq, Repr

/-- One entry of a completed scan: `WiFi.SSID(i)` and `WiFi.BSSID(i)`. -/
structure ScanResult where
  ssid : String
  bssid : Mac
deriving DecidableEq, Repr

/-- What the environment returns during one tick.  `scan = none` stands for a
negative `WiFi.scanComplete()` (scan running or not started); `some l` for
`networksFound = l.length` with the listed results. -/
structure Env where
  clock : Nat
  pending : Option (List Char)
  scan : Option (List ScanResult)
  isConnected : Bool
  bssid : Mac
deriving DecidableEq, Repr

/-- Data members of `class OrviboS20WiFiPairClass` (callbacks as installed
flags; the socket is part of the environment). -/
structure OrviboS20WiFiPairClass where
  m_ssid : String
  m_passphrase : String
  m_state : State := State.S_STOPPED
  m_current_cmd : Nat
  m_cmd_retransmit_counter : Int
  m_state_timer : Int
  m_tmo_timer : Int
  m_last_tick_time : Nat := 0
  m_found_device_cb : Bool := false
  m_sending_cmd_cb : Bool := false
  m_stopped_cb : Bool := false
  m_success_cb : Bool := false
deriving DecidableEq, Repr

/-- Result of `enterState`/`executeState`: the object afterwards, the returned
state and the actions performed. -/
structure Result where
  self : OrviboS20WiFiPairClass
  ret : State
  actions : List Action
deriving DecidableEq, Repr

/-- Put actions performed earlier in the tick in front of a result. -/
def Result.after (pre : List Action) (r : Result) : Result :=
  { r with actions := pre ++ r.actions }

/-! ## Methods of the pairing machine -/

/-- Text built by the `switch` of `sendCommand`; empty for any other id. -/
def commandText (m : OrviboS20WiFiPairClass) (cmdId : Nat) : String :=
  if cmdId = CMD_ASSISTTHREAD then TXT_ASSISTTHREAD
  else if cmdId = CMD_SSID then "AT+WSSSID=" ++ m.m_ssid ++ "\r"
  else if cmdId = CMD_KEY then
    (if m.m_passphrase = "" then "AT+WSKEY=" ++ "OPEN,NONE,\r"
     else "AT+WSKEY=" ++ ("WPA2PSK,AES," ++ m.m_passphrase ++ "\r"))
  else if cmdId = CMD_MODE then TXT_MODE
  else if cmdId = CMD_Z then TXT_Z
  else ""

/-- Method `sendCommand`: the sending-command notification, then the broadcast
of the text by `sendString`. -/
def sendCommand (m : OrviboS20WiFiPairClass) (cmdId : Nat) : List Action :=
  [Action.sendingCommand (commandText m cmdId) m.m_sending_cmd_cb,
    Action.sendString (commandText m cmdId)]

/-- Test `String::startsWith`. -/
def startsWith : List Char → List Char → Bool
  | _, [] => true
  | [], _ :: _ => false
  | c :: s, p :: pre => c == p && startsWith s pre

/-- Test `String::endsWith`. -/
def endsWith (s suffix : List Char) : Bool :=
  startsWith s.reverse suffix.reverse

/-- Method `checkRxPacket` of the pairing class.  At most 63 bytes are read,
the buffer is null-terminated and taken as a C string, then upper-cased. -/
def checkRxPacket (m : OrviboS20WiFiPairClass) (pending : Option (List Char)) :
    PacketType × List Action :=
  match pending with
  | none => (PacketType.PKT_NONE, [])
  | some text =>
    if text.length ≤ 0 then (PacketType.PKT_NONE, [])
    else
      let rx_buffer := text.take 63
      let rsp := (rx_buffer.takeWhile (fun c => c ≠ Char.ofNat 0)).map Char.toUpper
      if startsWith rsp ['+', 'O', 'K'] then (PacketType.PKT_OK, [])
      else if startsWith rsp ['+', 'E', 'R', 'R'] then (PacketType.PKT_ERROR, [])
      else if endsWith rsp ['H', 'F', '-', 'L', 'P', 'B', '1', '0', '0']
          && m.m_current_cmd == CMD_ASSISTTHREAD then
        (PacketType.PKT_OK, [Action.sendString TXT_ACK])
      else (PacketType.PKT_UNKNOWN, [])

/-- Reason chosen by the inner `switch (m_state)` of `enterState(S_STOPPED)`. -/
def stopReason (m_state : State) : OrviboStopReason :=
  match m_state with
  | State.S_PAIRING_COMPLETE => OrviboStopReason.REASON_PAIRING_SUCCESSFUL
  | State.S_COMMAND_FAILED => OrviboStopReason.REASON_COMMAND_FAILED
  | State.S_TIMEOUT => OrviboStopReason.REASON_TIMEOUT
  | _ => OrviboStopReason.REASON_STOPPED_BY_USER

/-- Branch `case S_STOPPED` of `enterState`.  It reads the member `m_state`,
which still holds the state the machine was in when the tick began. -/
def enterStopped (m : OrviboS20WiFiPairClass) : Result :=
  if m.m_state ≠ State.S_STOPPED then
    ⟨m, State.S_STOPPED,
      [Action.wifiDisconnect, Action.udpStop,
        Action.stopped (stopReason m.m_state) m.m_stopped_cb]⟩
  else ⟨m, State.S_STOPPED, [Action.wifiDisconnect]⟩

/-- Method `enterState`.  The three pseudo-states call `enterState(S_STOPPED)`
and return its result. -/
def enterState (m : OrviboS20WiFiPairClass) (env : Env) (state : State) : Result :=
  match state with
  | State.S_IDLE =>
    ⟨{ m with m_tmo_timer := GLOBAL_TIMEOUT_S }, state, [Action.wifiDisconnect]⟩
  | State.S_SCAN => ⟨m, state, [Action.wifiScanNetworks]⟩
  | State.S_CONNECT =>
    ⟨{ m with m_state_timer := CONNECT_TIMEOUT_S }, state,
      [Action.wifiBegin WIWO_S20_SSID]⟩
  | State.S_SEND_COMMANDS =>
    let m1 := { m with m_state_timer := COMMAND_TIMEOUT_S
                       m_current_cmd := CMD_FIRST
                       m_cmd_retransmit_counter := 0 }
    ⟨m1, state, sendCommand m1 m1.m_current_cmd⟩
  | State.S_STOPPED => enterStopped m
  | State.S_PAIRING_COMPLETE =>
    (enterStopped m).after [Action.success env.bssid m.m_success_cb]
  | State.S_COMMAND_FAILED => enterStopped m
  | State.S_TIMEOUT => enterStopped m

/-- Timer update of `executeState` (lines 170-177): once more than 1000 ms have
passed since the last update, both countdowns that are not yet negative are
decremented. -/
def tickTimers (m : OrviboS20WiFiPairClass) (clock : Nat) : OrviboS20WiFiPairClass :=
  if sub32 (millis clock) m.m_last_tick_time > 1000 then
    let m1 := { m with m_last_tick_time := millis clock }
    let m2 := if m1.m_state_timer ≥ 0 then
        { m1 with m_state_timer := m1.m_state_timer - 1 } else m1
    if m2.m_tmo_timer ≥ 0 then { m2 with m_tmo_timer := m2.m_tmo_timer - 1 } else m2
  else m

/-- Scan loop of `executeState` (lines 195-205): `BSSID(i)` of the first `i`
with `SSID(i) == WIWO_S20_SSID`. -/
def scanLoop : List ScanResult → Option Mac
  | [] => none
  | r :: rest => if r.ssid = WIWO_S20_SSID then some r.bssid else scanLoop rest

/-- Method `executeState`.  The assignments `state_timeout = COMMAND_TIMEOUT_S`
of the source write the local flag `state_timeout`, which is not read again;
they leave `m_state_timer` as it is and have no counterpart here. -/
def executeState (m : OrviboS20WiFiPairClass) (env : Env) (state : State) : Result :=
  let rx := checkRxPacket m env.pending
  let pkt := rx.1
  let m1 := tickTimers m env.clock
  let state_timeout : Bool := decide (m1.m_state_timer ≤ 0)
  let global_timeout : Bool := decide (m1.m_tmo_timer ≤ 0)
  if state ≠ State.S_STOPPED ∧ global_timeout = true then
    (enterState m1 env State.S_TIMEOUT).after rx.2
  else
    match state with
    | State.S_IDLE => (enterState m1 env State.S_SCAN).after rx.2
    | State.S_SCAN =>
      match env.scan with
      | some results =>
        match scanLoop results with
        | some bssid =>
          (enterState m1 env State.S_CONNECT).after
            (rx.2 ++ [Action.foundDevice bssid m1.m_found_device_cb])
        | none => (enterState m1 env State.S_SCAN).after rx.2
      | none => ⟨m1, state, rx.2⟩
    | State.S_CONNECT =>
      if env.isConnected then (enterState m1 env State.S_SEND_COMMANDS).after rx.2
      else if state_timeout then (enterState m1 env State.S_SCAN).after rx.2
      else ⟨m1, state, rx.2⟩
    | State.S_SEND_COMMANDS =>
      if pkt = PacketType.PKT_OK then
        let m2 := { m1 with m_cmd_retransmit_counter := 0
                            m_current_cmd := m1.m_current_cmd + 1 }
        if m2.m_current_cmd = CMD_LAST then
          (enterState m2 env State.S_PAIRING_COMPLETE).after rx.2
        else ⟨m2, state, rx.2 ++ sendCommand m2 m2.m_current_cmd⟩
      else if pkt = PacketType.PKT_ERROR then
        (enterState m1 env State.S_COMMAND_FAILED).after rx.2
      else if state_timeout then
        let m2 := { m1 with m_cmd_retransmit_counter := m1.m_cmd_retransmit_counter + 1 }
        if m1.m_cmd_retransmit_counter < 2 then
          if m2.m_current_cmd = CMD_Z then
            (enterState m2 env State.S_PAIRING_COMPLETE).after
              (rx.2 ++ sendCommand m2 m2.m_current_cmd)
          else ⟨m2, state, rx.2 ++ sendCommand m2 m2.m_current_cmd⟩
        else (enterState m2 env State.S_SCAN).after rx.2
      else ⟨m1, state, rx.2⟩
    | _ => ⟨m1, state, rx.2⟩

/-- Method `handle`: one tick, `m_state = executeState(m_state)`. -/
def handle (m : OrviboS20WiFiPairClass) (env : Env) :
    OrviboS20WiFiPairClass × List Action :=
  let r := executeState m env m.m_state
  ({ r.self with m_state := r.ret }, r.actions)

/-- Method `stop`: `m_state = enterState(S_STOPPED)`. -/
def stop (m : OrviboS20WiFiPairClass) (env : Env) :
    OrviboS20WiFiPairClass × List Action :=
  let r := enterState m env State.S_STOPPED
  ({ r.self with m_state := r.ret }, r.actions)

/-- Method `begin(ssid, passphrase)`; a null passphrase is the empty string. -/
def begin (m : OrviboS20WiFiPairClass) (env : Env) (ssid : String)
    (passphrase : Option String) : OrviboS20WiFiPairClass × List Action :=
  let m1 := { m with m_ssid := ssid, m_passphrase := passphrase.getD "" }
  let r := enterState m1 env State.S_IDLE
  ({ r.self with m_state := r.ret }, r.actions ++ [Action.udpBegin])

/-- Consecutive calls of `handle`, one per environment of the list. -/
def handleAll (m : OrviboS20WiFiPairClass) :
    List Env → OrviboS20WiFiPairClass × List Action
  | [] => (m, [])
  | env :: rest =>
    let r := handle m env
    let q := handleAll r.1 rest
    (q.1, r.2 ++ q.2)

/-- Consecutive calls of `stop`, one per environment of the list. -/
def stopAll (m : OrviboS20WiFiPairClass) :
    List Env → OrviboS20WiFiPairClass × List Action
  | [] => (m, [])
  | env :: rest =>
    let r := stop m env
    let q := stopAll r.1 rest
    (q.1, r.2 ++ q.2)

/-! ## Reading the action log -/

/-- States in which the machine is at work: Idle, Scan, Connect, SendCommands. -/
def State.isActiveState (s : State) : Bool :=
  match s with
  | State.S_IDLE => true
  | State.S_SCAN => true
  | State.S_CONNECT => true
  | State.S_SEND_COMMANDS => true
  | _ => false

/-- Entry logged by `sendCommand` (and by nothing else): a command is sent. -/
def Action.isCommand (a : Action) : Bool :=
  match a with
  | Action.sendingCommand _ _ => true
  | _ => false

/-- Entry of the stop notification. -/
def Action.isStopped (a : Action) : Bool :=
  match a with
  | Action.stopped _ _ => true
  | _ => false

/-- Entry of the found-device notification. -/
def Action.isFoundDevice (a : Action) : Bool :=
  match a with
  | Action.foundDevice _ _ => true
  | _ => false

/-- Entry of the success notification. -/
def Action.isSuccess (a : Action) : Bool :=
  match a with
  | Action.success _ _ => true
  | _ => false

/-- Entry of a state-local action of Idle, Scan, Connect or SendCommands: a scan
start, an association, a found-device or success notification, a command. -/
def Action.isStateLocal (a : Action) : Bool :=
  match a with
  | Action.wifiScanNetworks => true
  | Action.wifiBegin _ => true
  | Action.foundDevice _ _ => true
  | Action.success _ _ => true
  | Action.sendingCommand _ _ => true
  | _ => false

/-- Example machine in state `st` with current command `cmd`, retransmit
counter `cnt`, per-command countdown `stTimer` and global countdown 50; target
network "home" without passphrase, no callback installed. -/
def machineIn (st : State) (cmd : Nat) (cnt : Int) (stTimer : Int) :
    OrviboS20WiFiPairClass :=
  { m_ssid := "home", m_passphrase := "", m_state := st, m_current_cmd := cmd,
    m_cmd_retransmit_counter := cnt, m_state_timer := stTimer, m_tmo_timer := 50 }

/-- Example environment at clock value 500 with the given pending datagram and
scan results, not associated. -/
def envWith (pending : Option (List Char)) (scan : Option (List ScanResult)) : Env :=
  { clock := 500, pending := pending, scan := scan, isConnected := false,
    bssid := ⟨0xAC, 0xCF, 0x23, 1, 2, 3⟩ }

end OrviboS20WiFiPair

namespace OrviboS20

/-! ## Auxiliary facts -/

theorem be16_eq (a b : Byte) : u16 ((a.val <<< 8) ||| b.val) = 256 * a.val + b.val := by
  have hb : b.val < 2 ^ 8 := b.isLt
  have ha : a.val < 256 := a.isLt
  rw [Nat.shiftLeft_eq, Nat.mul_comm, ← Nat.mul_add_lt_is_or hb]
  unfold u16
  norm_num
  omega

theorem take_two_eq_magic (rx : List Byte) (h : 2 ≤ rx.length) :
    rx.take 2 = ORVIBO_MAGIC ↔ rxByte rx 0 = 0x68 ∧ rxByte rx 1 = 0x64 := by
  match rx, h with
  | a :: b :: rest, _ =>
    simp [ORVIBO_MAGIC, rxByte]

theorem parseFrame_eq_none_iff (rx : List Byte) :
    parseFrame rx = none ↔ ¬ ValidFrame rx := by
  unfold parseFrame ValidFrame
  simp only [be16_eq, ORVIBO_HEADER_LEN]
  by_cases hlen : rx.length < 18
  · simp [hlen]
  · have h2 : 2 ≤ rx.length := by omega
    have hm := take_two_eq_magic rx h2
    by_cases hmag : rx.take 2 = ORVIBO_MAGIC
    · have hb := hm.mp hmag
      simp [hlen, hmag, hb]
      split <;> simp_all
    · have hb : ¬ (rxByte rx 0 = 0x68 ∧ rxByte rx 1 = 0x64) := fun hc => hmag (hm.mpr hc)
      simp [hlen, hmag]
      intro _ h0 h1
      exact absurd ⟨h0, h1⟩ hb

theorem parseFrame_of_valid (rx : List Byte) (h : ValidFrame rx) :
    parseFrame rx =
      some (if 256 * (rxByte rx 4).val + (rxByte rx 5).val = CMD_DISCOVER then
          ⟨256 * (rxByte rx 4).val + (rxByte rx 5).val, 7, 19,
            (rx.length - 18 + (2 ^ 32 - 1)) % 2 ^ 32⟩
        else ⟨256 * (rxByte rx 4).val + (rxByte rx 5).val, 6, 18, rx.length - 18⟩) := by
  obtain ⟨hlen, h0, h1, htot⟩ := h
  have hmag : rx.take 2 = ORVIBO_MAGIC :=
    (take_two_eq_magic rx (by omega)).mpr ⟨h0, h1⟩
  have hnl : ¬ rx.length < 18 := by omega
  unfold parseFrame
  simp only [be16_eq, ORVIBO_HEADER_LEN]
  simp [hnl, hmag, htot]
  split <;> rfl

theorem sub32_eq_emod (a b : Nat) :
    ((sub32 a b : Nat) : Int) = ((a : Int) - (b : Int)) % 4294967296 := by
  unfold sub32
  norm_num
  omega

theorem sub32_millis_elapsed (clock T : Nat) (h1 : T ≤ clock) (h2 : clock - T < 2 ^ 32) :
    sub32 (millis clock) (millis T) = clock - T := by
  unfold sub32 millis
  norm_num at *
  omega

theorem updateConnectState_spec (d : OrviboS20Device) (c : Bool) :
    (updateConnectState d c).1 = { d with m_connected := c }
    ∧ (updateConnectState d c).2 =
        (if c = d.m_connected then []
         else if c then [⟨Notification.connect, d.m_connect_callback⟩]
         else [⟨Notification.disconnect, d.m_disconnect_callback⟩]) := by
  unfold updateConnectState
  by_cases h : c = d.m_connected
  · simp [h]
  · cases c <;> simp [h]

theorem handlePacket_connected (d : OrviboS20Device) (clock command : Nat)
    (payload : List Byte) (length : Nat) :
    (handlePacket d clock command payload length).1.m_connected = true := by
  unfold handlePacket
  simp only [(updateConnectState_spec _ true).1]
  split
  · split
    · split <;> rfl
    · rfl
  · rfl

theorem handlePacket_connect_fired (d : OrviboS20Device) (clock command : Nat)
    (payload : List Byte) (length : Nat) :
    (handlePacket d clock command payload length).2.countP Fired.isConnect
        = (if d.m_connected = false then 1 else 0)
    ∧ (handlePacket d clock command payload length).2.countP Fired.isDisconnect = 0 := by
  unfold handlePacket
  simp only [(updateConnectState_spec _ true).1, (updateConnectState_spec _ true).2]
  cases hc : d.m_connected <;>
    (split
     · split
       · split <;> simp [Fired.isConnect, Fired.isDisconnect, List.countP_cons]
       · simp [Fired.isConnect, Fired.isDisconnect, List.countP_cons]
     · simp [Fired.isConnect, Fired.isDisconnect, List.countP_cons])

theorem checkConnectTimeout_fired (d : OrviboS20Device) (clock : Nat) :
    (checkConnectTimeout d clock).2.countP Fired.isConnect = 0
    ∧ (checkConnectTimeout d clock).2.countP Fired.isDisconnect
        = (if d.m_connected = true ∧ (checkConnectTimeout d clock).1.m_connected = false
            then 1 else 0) := by
  unfold checkConnectTimeout
  cases hc : d.m_connected
  · simp
  · simp only [if_true]
    split
    · simp [(updateConnectState_spec d false).1, (updateConnectState_spec d false).2, hc,
        Fired.isConnect, Fired.isDisconnect, List.countP_cons]
    · simp [hc]

theorem sweeps_from_disconnected (clocks : List Nat) :
    ∀ d : OrviboS20Device, d.m_connected = false →
      callLog d (clocks.map DeviceCall.sweep) = [] := by
  induction clocks with
  | nil => intro d _; rfl
  | cons c rest ih =>
    intro d hd
    have hstep : checkConnectTimeout d c = (d, []) := by
      simp [checkConnectTimeout, hd]
    have := ih d hd
    simp only [callLog] at this
    simp [callLog, callTrace, DeviceCall.run, hstep, this]

theorem deviceLoop_spec (src : Mac) (l : List OrviboS20Device) :
    ∀ (i : Nat) (any : Option Nat),
      (∃ j d, deviceLoop src l i any = LoopExit.matched (i + j) ∧ l[j]? = some d
          ∧ d.m_mac = src ∧ ∀ j2, j2 < j → ∀ e, l[j2]? = some e → e.m_mac ≠ src)
      ∨ ((∀ e ∈ l, e.m_mac ≠ src) ∧
          ((∃ a, any = some a ∧ deviceLoop src l i any = LoopExit.finished (some a))
           ∨ (any = none ∧ deviceLoop src l i any = LoopExit.finished none
                ∧ ∀ e ∈ l, e.m_any_mac = false)
           ∨ (any = none ∧ ∃ k w, deviceLoop src l i any = LoopExit.finished (some (i + k))
                ∧ l[k]? = some w ∧ w.m_any_mac = true
                ∧ ∀ j, j < k → ∀ e, l[j]? = some e → e.m_any_mac = false))) := by
  induction l with
  | nil =>
    intro i any
    right
    refine ⟨by simp, ?_⟩
    cases any with
    | none => right; left; simp [deviceLoop]
    | some a => left; exact ⟨a, rfl, rfl⟩
  | cons d rest ih =>
    intro i any
    by_cases hm : d.m_mac = src
    · left
      refine ⟨0, d, by simp [deviceLoop, hm], by simp, hm, ?_⟩
      intro j2 hj2
      omega
    · have hstep : deviceLoop src (d :: rest) i any
          = deviceLoop src rest (i + 1)
              (if d.m_any_mac && any.isNone then some i else any) := by
        simp [deviceLoop, hm]
      rcases ih (i + 1) (if d.m_any_mac && any.isNone then some i else any) with
        ⟨j, e, h1, h2, h3, h4⟩ | ⟨hno, hfin⟩
      · left
        refine ⟨j + 1, e, ?_, by simpa using h2, h3, ?_⟩
        · rw [hstep, h1]
          congr 1
          omega
        · intro j2 hj2 e2 he2
          cases j2 with
          | zero =>
            simp at he2
            subst he2
            exact hm
          | succ j3 => exact h4 j3 (by omega) e2 (by simpa using he2)
      · right
        refine ⟨?_, ?_⟩
        · intro e he
          simp only [List.mem_cons] at he
          rcases he with rfl | he
          · exact hm
          · exact hno e he
        · cases any with
          | some a =>
            left
            refine ⟨a, rfl, ?_⟩
            rw [hstep]
            simp only [Option.isNone_some, Bool.and_false] at hfin ⊢
            rcases hfin with ⟨a2, ha2, hf⟩ | ⟨hc, _⟩ | ⟨hc, _⟩
            · simp at ha2
              subst ha2
              simpa using hf
            · simp at hc
            · simp at hc
          | none =>
            right
            cases hd : d.m_any_mac with
            | false =>
              simp only [hd, Bool.false_and] at hfin hstep
              rcases hfin with ⟨a2, ha2, _⟩ | ⟨_, hf, hall⟩ | ⟨_, k, w, hf, hk, hw, hbefore⟩
              · simp at ha2
              · left
                refine ⟨rfl, ?_, ?_⟩
                · rw [hstep]; simpa using hf
                · intro e he
                  simp only [List.mem_cons] at he
                  rcases he with rfl | he
                  · exact hd
                  · exact hall e he
              · right
                refine ⟨rfl, k + 1, w, ?_, by simpa using hk, hw, ?_⟩
                · rw [hstep]
                  simp only [Bool.false_eq_true, if_false] at hf ⊢
                  rw [hf]
                  congr 2
                  omega
                · intro j hj e he
                  cases j with
                  | zero =>
                    simp at he
                    subst he
                    exact hd
                  | succ j3 => exact hbefore j3 (by omega) e (by simpa using he)
            | true =>
              simp only [hd, Option.isNone_none, Bool.and_self, if_true] at hfin hstep
              right
              refine ⟨rfl, 0, d, ?_, by simp, hd, ?_⟩
              · rw [hstep]
                rcases hfin with ⟨a2, ha2, hf⟩ | ⟨hc, _⟩ | ⟨hc, _⟩
                · simp at ha2
                  subst ha2
                  simpa using hf
                · simp at hc
                · simp at hc
              · intro j hj
                omega

theorem checkIfNewDevice_devices (s : Engine) (mac : Mac) :
    (checkIfNewDevice s mac).state.m_device_list = s.m_device_list := by
  unfold checkIfNewDevice
  split
  · rfl
  · split <;> rfl

theorem handlePacket_identity (d : OrviboS20Device) (clock command : Nat)
    (payload : List Byte) (length : Nat) :
    (handlePacket d clock command payload length).1.m_mac = d.m_mac
    ∧ (handlePacket d clock command payload length).1.m_any_mac = d.m_any_mac
    ∧ (handlePacket d clock command payload length).1.m_ip = d.m_ip := by
  unfold handlePacket
  simp only [(updateConnectState_spec _ true).1]
  split
  · split
    · split <;> exact ⟨rfl, rfl, rfl⟩
    · exact ⟨rfl, rfl, rfl⟩
  · exact ⟨rfl, rfl, rfl⟩

theorem onDevice_devices (s : Engine) (i : Nat)
    (f : OrviboS20Device → OrviboS20Device × List Fired) (d : OrviboS20Device)
    (h : s.m_device_list[i]? = some d) :
    (onDevice s i f).1.m_device_list = s.m_device_list.set i (f d).1
    ∧ (onDevice s i f).2 = (f d).2.map (EngineFired.device i) := by
  unfold onDevice
  rw [h]
  exact ⟨rfl, rfl⟩

theorem parseFrame_some_length (rx : List Byte) (fr : Frame)
    (h : parseFrame rx = some fr) : 18 ≤ rx.length := by
  have hv : ValidFrame rx := by
    by_contra hn
    rw [(parseFrame_eq_none_iff rx).mpr hn] at h
    exact Option.noConfusion h
  exact hv.1

theorem checkRxPacket_eval (s : Engine) (clock : Nat) (pkt : Datagram) (fr : Frame)
    (hfr : parseFrame (pkt.bytes.take 64) = some fr) :
    checkRxPacket s clock (some pkt) =
      (if (checkIfNewDevice s (readMac (pkt.bytes.take 64) fr.src_mac_off)).fault then
          checkIfNewDevice s (readMac (pkt.bytes.take 64) fr.src_mac_off)
        else
          match deviceLoop (readMac (pkt.bytes.take 64) fr.src_mac_off)
              (checkIfNewDevice s (readMac (pkt.bytes.take 64) fr.src_mac_off)).state.m_device_list
              0 none with
          | LoopExit.matched iter =>
            ⟨(onDevice (checkIfNewDevice s (readMac (pkt.bytes.take 64) fr.src_mac_off)).state
                iter (fun d => handlePacket { d with m_ip := pkt.ip } clock fr.cmd
                  ((pkt.bytes.take 64).drop fr.payload_off) fr.payload_length)).1,
              (checkIfNewDevice s (readMac (pkt.bytes.take 64) fr.src_mac_off)).fired
                ++ (onDevice (checkIfNewDevice s (readMac (pkt.bytes.take 64) fr.src_mac_off)).state
                iter (fun d => handlePacket { d with m_ip := pkt.ip } clock fr.cmd
                  ((pkt.bytes.take 64).drop fr.payload_off) fr.payload_length)).2,
              false⟩
          | LoopExit.finished (some any_mac_dev) =>
            ⟨(onDevice (checkIfNewDevice s (readMac (pkt.bytes.take 64) fr.src_mac_off)).state
                any_mac_dev (fun d => handlePacket
                  { d with m_any_mac := false
                           m_mac := readMac (pkt.bytes.take 64) fr.src_mac_off
                           m_ip := pkt.ip }
                  clock fr.cmd ((pkt.bytes.take 64).drop fr.payload_off) fr.payload_length)).1,
              (checkIfNewDevice s (readMac (pkt.bytes.take 64) fr.src_mac_off)).fired
                ++ (onDevice (checkIfNewDevice s (readMac (pkt.bytes.take 64) fr.src_mac_off)).state
                any_mac_dev (fun d => handlePacket
                  { d with m_any_mac := false
                           m_mac := readMac (pkt.bytes.take 64) fr.src_mac_off
                           m_ip := pkt.ip }
                  clock fr.cmd ((pkt.bytes.take 64).drop fr.payload_off) fr.payload_length)).2,
              false⟩
          | LoopExit.finished none =>
            ⟨(checkIfNewDevice s (readMac (pkt.bytes.take 64) fr.src_mac_off)).state,
              (checkIfNewDevice s (readMac (pkt.bytes.take 64) fr.src_mac_off)).fired,
              false⟩) := by
  have hlen := parseFrame_some_length _ _ hfr
  have hpos : ¬ pkt.bytes.length ≤ 0 := by
    intro h0
    have : pkt.bytes.length = 0 := by omega
    rw [List.length_take, this] at hlen
    omega
  unfold checkRxPacket
  simp only [hpos, if_false, hfr]

theorem checkRxPacket_none_frame (s : Engine) (clock : Nat) (pkt : Datagram)
    (h : parseFrame (pkt.bytes.take 64) = none) :
    checkRxPacket s clock (some pkt) = ⟨s, [], false⟩ := by
  unfold checkRxPacket
  simp only [h]
  split <;> rfl

theorem checkRxPacket_device_cases (s : Engine) (clock : Nat) (pending : Option Datagram) :
    (checkRxPacket s clock pending).state.m_device_list = s.m_device_list
    ∨ (∃ i d d2, s.m_device_list[i]? = some d
        ∧ (checkRxPacket s clock pending).state.m_device_list = s.m_device_list.set i d2
        ∧ d2.m_mac = d.m_mac ∧ d2.m_any_mac = d.m_any_mac)
    ∨ (∃ a w w2, s.m_device_list[a]? = some w ∧ w.m_any_mac = true
        ∧ (∀ e ∈ s.m_device_list, e.m_mac ≠ w2.m_mac)
        ∧ (checkRxPacket s clock pending).state.m_device_list = s.m_device_list.set a w2
        ∧ w2.m_any_mac = false
        ∧ ∃ pkt fr, pending = some pkt ∧ parseFrame (pkt.bytes.take 64) = some fr
            ∧ w2.m_mac = readMac (pkt.bytes.take 64) fr.src_mac_off) := by
  cases pending with
  | none => left; rfl
  | some pkt =>
    cases hfr : parseFrame (pkt.bytes.take 64) with
    | none => left; rw [checkRxPacket_none_frame s clock pkt hfr]
    | some fr =>
      rw [checkRxPacket_eval s clock pkt fr hfr]
      have hdev := checkIfNewDevice_devices s (readMac (pkt.bytes.take 64) fr.src_mac_off)
      by_cases hfault : (checkIfNewDevice s (readMac (pkt.bytes.take 64) fr.src_mac_off)).fault
          = true
      · left
        rw [if_pos hfault]
        exact hdev
      · rw [if_neg hfault, hdev]
        rcases deviceLoop_spec (readMac (pkt.bytes.take 64) fr.src_mac_off)
            s.m_device_list 0 none with
          ⟨j, d, h1, h2, h3, _⟩ | ⟨hno, ⟨a, ha, _⟩ | ⟨_, hf, _⟩ | ⟨_, k, w, hf, hk, hw, _⟩⟩
        · right; left
          rw [h1]
          simp only [Nat.zero_add]
          have hod := onDevice_devices
            (checkIfNewDevice s (readMac (pkt.bytes.take 64) fr.src_mac_off)).state j
            (fun d => handlePacket { d with m_ip := pkt.ip } clock fr.cmd
              ((pkt.bytes.take 64).drop fr.payload_off) fr.payload_length) d
            (by rw [hdev]; exact h2)
          refine ⟨j, d, (handlePacket { d with m_ip := pkt.ip } clock fr.cmd
              ((pkt.bytes.take 64).drop fr.payload_off) fr.payload_length).1, h2, ?_, ?_, ?_⟩
          · rw [hod.1, hdev]
          · exact (handlePacket_identity _ _ _ _ _).1
          · exact (handlePacket_identity _ _ _ _ _).2.1
        · exact Option.noConfusion ha
        · left
          rw [hf]
          exact hdev
        · right; right
          rw [hf]
          simp only [Nat.zero_add]
          have hod := onDevice_devices
            (checkIfNewDevice s (readMac (pkt.bytes.take 64) fr.src_mac_off)).state k
            (fun d => handlePacket
              { d with m_any_mac := false
                       m_mac := readMac (pkt.bytes.take 64) fr.src_mac_off
                       m_ip := pkt.ip }
              clock fr.cmd ((pkt.bytes.take 64).drop fr.payload_off) fr.payload_length) w
            (by rw [hdev]; exact hk)
          have hid := handlePacket_identity
            { w with m_any_mac := false
                     m_mac := readMac (pkt.bytes.take 64) fr.src_mac_off
                     m_ip := pkt.ip }
            clock fr.cmd ((pkt.bytes.take 64).drop fr.payload_off) fr.payload_length
          refine ⟨k, w, (handlePacket
            { w with m_any_mac := false
                     m_mac := readMac (pkt.bytes.take 64) fr.src_mac_off
                     m_ip := pkt.ip }
            clock fr.cmd ((pkt.bytes.take 64).drop fr.payload_off) fr.payload_length).1,
            hk, hw, ?_, ?_, hid.2.1, pkt, fr, rfl, hfr, hid.1⟩
          · intro e he
            rw [hid.1]
            exact hno e he
          · rw [hod.1, hdev]

theorem getElem?_set_cases (l : List OrviboS20Device) (i p : Nat)
    (x y : OrviboS20Device) (h : (l.set i x)[p]? = some y) :
    (p = i ∧ y = x ∧ p < l.length) ∨ (p ≠ i ∧ l[p]? = some y) := by
  rw [List.getElem?_set] at h
  by_cases hip : i = p
  · left
    subst hip
    simp only [if_true] at h
    by_cases hl : i < l.length
    · rw [if_pos hl] at h
      exact ⟨rfl, (Option.some.inj h).symm, hl⟩
    · rw [if_neg hl] at h
      exact Option.noConfusion h
  · right
    rw [if_neg hip] at h
    exact ⟨fun hc => hip hc.symm, h⟩

theorem checkRxPacket_bound_stable (s : Engine) (clock : Nat) (pending : Option Datagram)
    (k : Nat) (e : OrviboS20Device) (hk : s.m_device_list[k]? = some e)
    (hb : e.m_any_mac = false) :
    ∃ e2, (checkRxPacket s clock pending).state.m_device_list[k]? = some e2
      ∧ e2.m_mac = e.m_mac ∧ e2.m_any_mac = false := by
  have hklen : k < s.m_device_list.length := (List.getElem?_eq_some_iff.mp hk).1
  rcases checkRxPacket_device_cases s clock pending with
    h | ⟨i, d, d2, hi, hl, hm, ha⟩ | ⟨a, w, w2, hw, hwa, _, hl, _, _⟩
  · exact ⟨e, by rw [h]; exact hk, rfl, hb⟩
  · rw [hl, List.getElem?_set]
    by_cases hik : i = k
    · subst hik
      rw [hi] at hk
      have hde : d = e := Option.some.inj hk
      subst hde
      exact ⟨d2, by simp [hklen], hm, by rw [ha]; exact hb⟩
    · exact ⟨e, by rw [if_neg hik]; exact hk, rfl, hb⟩
  · rw [hl, List.getElem?_set]
    by_cases hak : a = k
    · subst hak
      rw [hw] at hk
      have hwe : w = e := Option.some.inj hk
      subst hwe
      rw [hwa] at hb
      exact Bool.noConfusion hb
    · exact ⟨e, by rw [if_neg hak]; exact hk, rfl, hb⟩

theorem receiveAll_bound_stable (rest : List (Nat × Datagram)) :
    ∀ (s : Engine) (k : Nat) (e : OrviboS20Device), s.m_device_list[k]? = some e →
      e.m_any_mac = false →
      ∃ e2, (receiveAll s rest).state.m_device_list[k]? = some e2
        ∧ e2.m_mac = e.m_mac ∧ e2.m_any_mac = false := by
  induction rest with
  | nil =>
    intro s k e hk hb
    exact ⟨e, hk, rfl, hb⟩
  | cons p rest ih =>
    intro s k e hk hb
    obtain ⟨clock, pkt⟩ := p
    obtain ⟨e1, h1, hm1, hb1⟩ := checkRxPacket_bound_stable s clock (some pkt) k e hk hb
    unfold receiveAll
    by_cases hf : (checkRxPacket s clock (some pkt)).fault = true
    · simp only [hf, if_true]
      exact ⟨e1, h1, hm1, hb1⟩
    · simp only [hf, if_false]
      obtain ⟨e2, h2, hm2, hb2⟩ := ih (checkRxPacket s clock (some pkt)).state k e1 h1 hb1
      exact ⟨e2, h2, by rw [hm2, hm1], hb2⟩

theorem addDeviceToList_eq_append (l : List OrviboS20Device) (dev : OrviboS20Device) :
    addDeviceToList l dev = l ++ [dev] := by
  induction l with
  | nil => rfl
  | cons d rest ih => simp [addDeviceToList, ih]

theorem handlePacket_fired (d : OrviboS20Device) (clock command : Nat)
    (payload : List Byte) (length : Nat) :
    (handlePacket d clock command payload length).2
      = (if d.m_connected = true then []
          else [⟨Notification.connect, d.m_connect_callback⟩])
        ++ (if command = CMD_STATE_CHANGE ∧ length = 5
              ∧ ((payload.getD 4 0).val : Int) ≠ d.m_last_state
            then [⟨Notification.stateChange (decide (((payload.getD 4 0).val : Int) ≠ 0)),
                    d.m_state_change_callback⟩]
            else []) := by
  unfold handlePacket
  simp only [(updateConnectState_spec _ true).1, (updateConnectState_spec _ true).2]
  by_cases hc : command = CMD_STATE_CHANGE
  · by_cases hl : length = 5
    · by_cases hs : ((payload.getD 4 0).val : Int) = d.m_last_state
      · cases hd : d.m_connected <;> simp [hc, hl, hs, -List.getD_eq_getElem?_getD]
      · cases hd : d.m_connected <;> simp [hc, hl, hs, -List.getD_eq_getElem?_getD]
    · cases hd : d.m_connected <;> simp [hc, hl]
  · cases hd : d.m_connected <;> simp [hc]

theorem checkConnectTimeout_fired_eq (d : OrviboS20Device) (clock : Nat) :
    (checkConnectTimeout d clock).2 = []
    ∨ (checkConnectTimeout d clock).2
        = [⟨Notification.disconnect, d.m_disconnect_callback⟩] := by
  unfold checkConnectTimeout
  split
  · split
    · rw [(updateConnectState_spec d false).2]
      split
      · left; rfl
      · right; rfl
    · left; rfl
  · left; rfl

/-! ## Claims -/

/-- C1: a datagram whose received bytes (at most 64) are fewer than 18, or do
not start with 0x68 0x64, or whose big-endian length field in bytes 2..3 is not
the received length, leaves the whole engine state (every device entry and the
known-MAC list) as it was, raises no notification and does not fault. -/
theorem checkRxPacket_invalid_no_effect (s : Engine) (clock : Nat) (pkt : Datagram)
    (h : (pkt.bytes.take 64).length < 18
      ∨ rxByte (pkt.bytes.take 64) 0 ≠ 0x68
      ∨ rxByte (pkt.bytes.take 64) 1 ≠ 0x64
      ∨ 256 * (rxByte (pkt.bytes.take 64) 2).val + (rxByte (pkt.bytes.take 64) 3).val
          ≠ (pkt.bytes.take 64).length) :
    (pkt.bytes.take 64).length ≤ 64 ∧
    checkRxPacket s clock (some pkt) = ⟨s, [], false⟩ := by
  refine ⟨by simp, ?_⟩
  have hinv : ¬ ValidFrame (pkt.bytes.take 64) := by
    intro hv
    obtain ⟨hlen, h0, h1, htot⟩ := hv
    rcases h with h | h | h | h
    · omega
    · exact h h0
    · exact h h1
    · exact h htot
  have hnone := (parseFrame_eq_none_iff _).mpr hinv
  unfold checkRxPacket
  simp only [hnone]
  split <;> rfl

/-- Witness for C1: a 17-byte datagram with the right magic is ignored. -/
theorem checkRxPacket_invalid_no_effect_witness :
    checkRxPacket ⟨true, true, [], [OrviboS20Device.anyMac]⟩ 5
        (some ⟨1, 10000, [0x68, 0x64, 0, 17, 0x73, 0x66, 1, 2, 3, 4, 5, 6,
          0x20, 0x20, 0x20, 0x20, 0x20]⟩)
      = ⟨⟨true, true, [], [OrviboS20Device.anyMac]⟩, [], false⟩ :=
  (checkRxPacket_invalid_no_effect ⟨true, true, [], [OrviboS20Device.anyMac]⟩ 5
    ⟨1, 10000, [0x68, 0x64, 0, 17, 0x73, 0x66, 1, 2, 3, 4, 5, 6,
      0x20, 0x20, 0x20, 0x20, 0x20]⟩ (Or.inl (by decide))).2

/-- C2: for a frame that passes validation the command is 256*b[4]+b[5]; for a
command other than 0x7161 the sender MAC is b[6..11] and the payload is
b[18..len) with length len-18; the MAC is b[7..12] and the payload starts at
b[19] when and only when the command is 0x7161. -/
theorem parseFrame_fields (rx : List Byte) (h : ValidFrame rx) :
    ∃ fr : Frame, parseFrame rx = some fr ∧
      fr.cmd = 256 * (rxByte rx 4).val + (rxByte rx 5).val ∧
      (fr.cmd ≠ 0x7161 →
        readMac rx fr.src_mac_off
            = ⟨rxByte rx 6, rxByte rx 7, rxByte rx 8, rxByte rx 9, rxByte rx 10, rxByte rx 11⟩
          ∧ fr.src_mac_off = 6 ∧ fr.payload_off = 18
          ∧ fr.payload_length = rx.length - 18
          ∧ (rx.drop fr.payload_off).length = fr.payload_length) ∧
      (fr.cmd = 0x7161 →
        readMac rx fr.src_mac_off
            = ⟨rxByte rx 7, rxByte rx 8, rxByte rx 9, rxByte rx 10, rxByte rx 11, rxByte rx 12⟩
          ∧ fr.src_mac_off = 6 + 1 ∧ fr.payload_off = 18 + 1) ∧
      ((fr.src_mac_off = 6 + 1 ∧ fr.payload_off = 18 + 1) ↔ fr.cmd = 0x7161) := by
  rw [parseFrame_of_valid rx h]
  by_cases hc : 256 * (rxByte rx 4).val + (rxByte rx 5).val = CMD_DISCOVER
  · refine ⟨_, rfl, ?_⟩
    simp only [hc, if_true]
    simp [CMD_DISCOVER, readMac]
  · refine ⟨_, rfl, ?_⟩
    simp only [hc, if_false]
    have hc2 : ¬ 256 * (rxByte rx 4).val + (rxByte rx 5).val = 0x7161 := hc
    simp [hc2, readMac]

/-- Witness for C2: a 23-byte state-change frame. -/
theorem parseFrame_fields_witness :
    ∃ fr : Frame, parseFrame [0x68, 0x64, 0, 23, 0x73, 0x66, 1, 2, 3, 4, 5, 6,
        0x20, 0x20, 0x20, 0x20, 0x20, 0x20, 0, 0, 0, 0, 1] = some fr ∧
      fr.cmd = 0x7366 ∧ fr.src_mac_off = 6 ∧ fr.payload_off = 18 := by
  obtain ⟨fr, h1, h2, h3, _, _⟩ := parseFrame_fields
    [0x68, 0x64, 0, 23, 0x73, 0x66, 1, 2, 3, 4, 5, 6,
      0x20, 0x20, 0x20, 0x20, 0x20, 0x20, 0, 0, 0, 0, 1] (by decide)
  have hcmd : fr.cmd = 0x7366 := by rw [h2]; decide
  have hne : fr.cmd ≠ 0x7161 := by rw [hcmd]; decide
  exact ⟨fr, h1, hcmd, (h3 hne).2.1, (h3 hne).2.2.1⟩

/-- C3: for every device MAC m0..m5 the subscribe datagram is exactly the 30
bytes 68 64, 00 1E, 63 6C, m0..m5, six 0x20, m5..m0, six 0x20, whatever the
local payload array held before; for AA:BB:CC:DD:EE:FF the payload starts
FF:EE:DD:CC:BB:AA and header bytes 6..11 are AA:BB:CC:DD:EE:FF. -/
theorem subscribe_bytes (d : OrviboS20Device) (junk : Fin 12 → Byte) :
    (subscribe d junk).bytes =
      [0x68, 0x64, 0x00, 0x1E, 0x63, 0x6C,
        d.m_mac.b0, d.m_mac.b1, d.m_mac.b2, d.m_mac.b3, d.m_mac.b4, d.m_mac.b5,
        0x20, 0x20, 0x20, 0x20, 0x20, 0x20,
        d.m_mac.b5, d.m_mac.b4, d.m_mac.b3, d.m_mac.b2, d.m_mac.b1, d.m_mac.b0,
        0x20, 0x20, 0x20, 0x20, 0x20, 0x20]
    ∧ (subscribe d junk).bytes.length = 30
    ∧ (d.m_mac = ⟨0xAA, 0xBB, 0xCC, 0xDD, 0xEE, 0xFF⟩ →
        ((subscribe d junk).bytes.drop 18).take 6 = [0xFF, 0xEE, 0xDD, 0xCC, 0xBB, 0xAA]
        ∧ ((subscribe d junk).bytes.drop 6).take 6 = [0xAA, 0xBB, 0xCC, 0xDD, 0xEE, 0xFF]) := by
  have hb : (subscribe d junk).bytes =
      [0x68, 0x64, 0x00, 0x1E, 0x63, 0x6C,
        d.m_mac.b0, d.m_mac.b1, d.m_mac.b2, d.m_mac.b3, d.m_mac.b4, d.m_mac.b5,
        0x20, 0x20, 0x20, 0x20, 0x20, 0x20,
        d.m_mac.b5, d.m_mac.b4, d.m_mac.b3, d.m_mac.b2, d.m_mac.b1, d.m_mac.b0,
        0x20, 0x20, 0x20, 0x20, 0x20, 0x20] := by
    rfl
  refine ⟨hb, by rw [hb]; rfl, ?_⟩
  intro hm
  rw [hb, hm]
  exact ⟨rfl, rfl⟩

/-- C4: with the state-change command 0x7366 and a 5-byte payload, handlePacket
raises the state-change notification exactly when payload[4] differs from the
cached relay state (and then once, handed to the callback when one is
installed); a second state-change packet carrying the same state byte raises
none, so both packets together raise at most one. -/
theorem handlePacket_stateChange_dedup (d : OrviboS20Device) (clock : Nat)
    (payload : List Byte) (hlen : payload.length = 5) :
    ((handlePacket d clock 0x7366 payload payload.length).2.any Fired.isStateChange = true
        ↔ ((payload.getD 4 0).val : Int) ≠ d.m_last_state)
    ∧ (handlePacket d clock 0x7366 payload payload.length).2.countP Fired.isStateChange ≤ 1
    ∧ (∀ f ∈ (handlePacket d clock 0x7366 payload payload.length).2,
        f.isStateChange = true → f.delivered = d.m_state_change_callback)
    ∧ ∀ (clock2 : Nat) (payload2 : List Byte), payload2.length = 5 →
        payload2.getD 4 0 = payload.getD 4 0 →
        (handlePacket (handlePacket d clock 0x7366 payload payload.length).1 clock2 0x7366
            payload2 payload2.length).2.any Fired.isStateChange = false
        ∧ ((handlePacket d clock 0x7366 payload payload.length).2
            ++ (handlePacket (handlePacket d clock 0x7366 payload payload.length).1 clock2
                  0x7366 payload2 payload2.length).2).countP Fired.isStateChange ≤ 1 := by
  have key : ∀ (e : OrviboS20Device) (c : Nat) (p : List Byte),
      ((handlePacket e c 0x7366 p 5).2.any Fired.isStateChange = true
          ↔ ((p.getD 4 0).val : Int) ≠ e.m_last_state)
      ∧ (handlePacket e c 0x7366 p 5).2.countP Fired.isStateChange
          = (if ((p.getD 4 0).val : Int) ≠ e.m_last_state then 1 else 0)
      ∧ (handlePacket e c 0x7366 p 5).1.m_last_state = ((p.getD 4 0).val : Int) := by
    intro e c p
    by_cases hs : ((p.getD 4 0).val : Int) = e.m_last_state
    · by_cases hc : e.m_connected = true <;>
        simp [handlePacket, updateConnectState, CMD_STATE_CHANGE, hs, hc,
          Fired.isStateChange, Fired.isConnect, List.countP_cons,
          -List.getD_eq_getElem?_getD]
    · by_cases hc : e.m_connected = true <;>
        simp [handlePacket, updateConnectState, CMD_STATE_CHANGE, hs, hc,
          Fired.isStateChange, Fired.isConnect, List.countP_cons,
          -List.getD_eq_getElem?_getD]
  rw [hlen]
  obtain ⟨k1, k2, k3⟩ := key d clock payload
  refine ⟨k1, ?_, ?_, ?_⟩
  · rw [k2]; split <;> omega
  · intro f hf hsc
    rw [handlePacket_fired] at hf
    simp only [List.mem_append] at hf
    rcases hf with hf | hf
    · split at hf
      · simp at hf
      · simp only [List.mem_singleton] at hf
        subst hf
        simp [Fired.isStateChange] at hsc
    · split at hf
      · simp only [List.mem_singleton] at hf
        subst hf
        rfl
      · simp at hf
  · intro clock2 payload2 hlen2 hsame
    rw [hlen2]
    obtain ⟨j1, j2, _⟩ := key (handlePacket d clock 0x7366 payload 5).1 clock2 payload2
    have hno : ¬ (((payload2.getD 4 0).val : Int)
        ≠ (handlePacket d clock 0x7366 payload 5).1.m_last_state) := by
      rw [k3, hsame]; simp
    refine ⟨?_, ?_⟩
    · cases hany : (handlePacket (handlePacket d clock 0x7366 payload 5).1 clock2 0x7366
          payload2 5).2.any Fired.isStateChange
      · rfl
      · exact absurd (j1.mp hany) hno
    · rw [List.countP_append, k2, j2, if_neg hno]
      split <;> omega

/-- Witness for C4: an any-MAC device receiving state byte 1 twice. -/
theorem handlePacket_stateChange_dedup_witness :
    (handlePacket OrviboS20Device.anyMac 7 0x7366 [0, 0, 0, 0, 1] 5).2.any
        Fired.isStateChange = true
    ∧ (handlePacket (handlePacket OrviboS20Device.anyMac 7 0x7366 [0, 0, 0, 0, 1] 5).1 9
          0x7366 [0, 0, 0, 0, 1] 5).2.any Fired.isStateChange = false := by
  have h := handlePacket_stateChange_dedup OrviboS20Device.anyMac 7 [0, 0, 0, 0, 1] rfl
  exact ⟨h.1.mpr (by decide), (h.2.2.2 9 [0, 0, 0, 0, 1] rfl rfl).1⟩

/-- C5: checkConnectTimeout disconnects a connected entry exactly when
(now - lastSeen) modulo 2^32 exceeds 150000 (strictly), changing nothing but
the connection flag; the wrapped difference is the true elapsed time whenever
fewer than 2^32 ms passed since the last packet, also across a wrap of the
clock; a disconnected entry is returned unchanged with no notification. -/
theorem checkConnectTimeout_wrapped (d : OrviboS20Device) (clock : Nat) :
    (d.m_connected = true →
      (((checkConnectTimeout d clock).1.m_connected = false
          ↔ (((millis clock : Nat) : Int) - (d.m_last_rx_time : Int)) % 4294967296
              > 150000)
        ∧ ((checkConnectTimeout d clock).1.m_connected = false →
            checkConnectTimeout d clock
              = ({ d with m_connected := false },
                  [⟨Notification.disconnect, d.m_disconnect_callback⟩]))
        ∧ ((checkConnectTimeout d clock).1.m_connected = true →
            checkConnectTimeout d clock = (d, []))))
    ∧ (d.m_connected = false → checkConnectTimeout d clock = (d, []))
    ∧ (∀ T : Nat, T ≤ clock → clock - T < 2 ^ 32 → d.m_last_rx_time = millis T →
        d.m_connected = true →
        ((checkConnectTimeout d clock).1.m_connected = false ↔ clock - T > 150000)) := by
  have hw := sub32_eq_emod (millis clock) d.m_last_rx_time
  have main : d.m_connected = true →
      (sub32 (millis clock) d.m_last_rx_time > 150000 →
        checkConnectTimeout d clock
          = ({ d with m_connected := false },
              [⟨Notification.disconnect, d.m_disconnect_callback⟩]))
      ∧ (¬ sub32 (millis clock) d.m_last_rx_time > 150000 →
        checkConnectTimeout d clock = (d, [])) := by
    intro hc
    constructor
    · intro ht
      simp [checkConnectTimeout, updateConnectState, hc, CONNECTION_TMO_MS, ht]
    · intro ht
      simp only [checkConnectTimeout, hc, CONNECTION_TMO_MS]
      simp only [Nat.reduceMul, if_true]
      rw [if_neg ht]
  have flag : d.m_connected = true →
      ((checkConnectTimeout d clock).1.m_connected = false
        ↔ sub32 (millis clock) d.m_last_rx_time > 150000) := by
    intro hc
    by_cases ht : sub32 (millis clock) d.m_last_rx_time > 150000
    · rw [(main hc).1 ht]; simp [ht]
    · rw [(main hc).2 ht]; simp [ht, hc]
  refine ⟨?_, ?_, ?_⟩
  · intro hc
    refine ⟨?_, ?_, ?_⟩
    · rw [flag hc]
      constructor
      · intro h; omega
      · intro h; omega
    · intro hf
      exact (main hc).1 ((flag hc).mp hf)
    · intro hf
      apply (main hc).2
      intro ht
      have := (flag hc).mpr ht
      rw [this] at hf
      exact Bool.noConfusion hf
  · intro hc
    simp [checkConnectTimeout, hc]
  · intro T h1 h2 hT hc
    rw [flag hc, hT, sub32_millis_elapsed clock T h1 h2]

/-- Witness for C5: last packet 100 ms before the 32-bit clock wraps, sweep
150001 ms later (after the wrap) disconnects; 150000 ms later does not. -/
theorem checkConnectTimeout_wrapped_witness :
    (checkConnectTimeout
        { m_any_mac := false, m_connected := true, m_last_rx_time := 4294967196 }
        (4294967196 + 150001)).1.m_connected = false := by
  have h := (checkConnectTimeout_wrapped
    { m_any_mac := false, m_connected := true, m_last_rx_time := 4294967196 }
    (4294967196 + 150001)).2.2 4294967196 (by decide) (by decide) (by decide) rfl
  exact h.mpr (by decide)

/-- C6: in every sequence of handlePacket and checkConnectTimeout calls on one
device, each call raises a connect notification exactly when it turns the
connection flag from false to true and a disconnect notification exactly when
it turns the flag from true to false, never more than one of them; connect is
raised only by a packet received while disconnected; each is handed to its
callback when one is installed; and any sequence of sweeps with no packet in
between raises at most one disconnect notification. -/
theorem connect_disconnect_on_flag_change (d : OrviboS20Device)
    (calls : List DeviceCall) :
    (∀ t ∈ callTrace d calls,
      (t.fired.any Fired.isConnect = true
          ↔ (t.before.m_connected = false ∧ t.after.m_connected = true))
      ∧ (t.fired.any Fired.isDisconnect = true
          ↔ (t.before.m_connected = true ∧ t.after.m_connected = false))
      ∧ t.fired.countP Fired.isConnect + t.fired.countP Fired.isDisconnect ≤ 1
      ∧ (t.fired.any Fired.isConnect = true →
          t.before.m_connected = false ∧
          ∃ clock command payload length,
            t.call = DeviceCall.packet clock command payload length)
      ∧ (∀ f ∈ t.fired,
          (f.isConnect = true → f.delivered = t.before.m_connect_callback)
          ∧ (f.isDisconnect = true → f.delivered = t.before.m_disconnect_callback)))
    ∧ (∀ clocks : List Nat,
        (callLog d (clocks.map DeviceCall.sweep)).countP Fired.isDisconnect ≤ 1) := by
  have anyc : ∀ (l : List Fired) (q : Fired → Bool), (l.any q = true ↔ 0 < l.countP q) := by
    intro l q
    rw [List.countP_pos_iff, List.any_eq_true]
  constructor
  · induction calls generalizing d with
    | nil => intro t ht; simp [callTrace] at ht
    | cons c rest ih =>
      intro t ht
      simp only [callTrace, List.mem_cons] at ht
      rcases ht with ht | ht
      · subst ht
        simp only [anyc]
        cases c with
        | packet clock command payload length =>
          have h1 := handlePacket_connect_fired d clock command payload length
          have h2 := handlePacket_connected d clock command payload length
          simp only [DeviceCall.run, h1.1, h1.2, h2]
          refine ⟨?_, ?_, ?_, ?_, ?_⟩
          · cases hc : d.m_connected <;> simp
          · cases hc : d.m_connected <;> simp
          · cases hc : d.m_connected <;> simp
          · cases hc : d.m_connected <;> simp
          · intro f hf
            rw [handlePacket_fired] at hf
            simp only [List.mem_append] at hf
            rcases hf with hf | hf
            · split at hf
              · simp at hf
              · simp only [List.mem_singleton] at hf
                subst hf
                simp [Fired.isConnect, Fired.isDisconnect]
            · split at hf
              · simp only [List.mem_singleton] at hf
                subst hf
                simp [Fired.isConnect, Fired.isDisconnect]
              · simp at hf
        | sweep clock =>
          have h1 := checkConnectTimeout_fired d clock
          have h3 : d.m_connected = false →
              (checkConnectTimeout d clock).1.m_connected = false := by
            intro hd
            simp [checkConnectTimeout, hd]
          simp only [DeviceCall.run, h1.1, h1.2]
          refine ⟨?_, ?_, ?_, ?_, ?_⟩
          · cases hc : d.m_connected <;>
              cases hr : (checkConnectTimeout d clock).1.m_connected <;> simp
            rw [h3 hc] at hr
            exact Bool.noConfusion hr
          · cases hc : d.m_connected <;>
              cases hr : (checkConnectTimeout d clock).1.m_connected <;> simp
          · cases hc : d.m_connected <;>
              cases hr : (checkConnectTimeout d clock).1.m_connected <;> simp
          · simp
          · intro f hf
            rcases checkConnectTimeout_fired_eq d clock with h0 | h0
            · rw [h0] at hf
              simp at hf
            · rw [h0] at hf
              simp only [List.mem_singleton] at hf
              subst hf
              simp [Fired.isConnect, Fired.isDisconnect]
      · exact ih _ t ht
  · intro clocks
    induction clocks generalizing d with
    | nil => simp [callLog, callTrace]
    | cons c rest ih =>
      have hsplit : callLog d ((c :: rest).map DeviceCall.sweep)
          = (checkConnectTimeout d c).2
            ++ callLog (checkConnectTimeout d c).1 (rest.map DeviceCall.sweep) := by
        simp [callLog, callTrace, DeviceCall.run]
      rw [hsplit, List.countP_append, (checkConnectTimeout_fired d c).2]
      by_cases hdis : d.m_connected = true ∧ (checkConnectTimeout d c).1.m_connected = false
      · rw [if_pos hdis, sweeps_from_disconnected rest _ hdis.2]
        simp
      · rw [if_neg hdis]
        have := ih (checkConnectTimeout d c).1
        omega

/-- Witness for C6: a connected device swept at 200000 ms and again at
400000 ms raises at most one disconnect notification. -/
theorem connect_disconnect_on_flag_change_witness :
    (callLog { m_any_mac := false, m_connected := true, m_last_rx_time := 0 }
      ([200000, 400000].map DeviceCall.sweep)).countP Fired.isDisconnect ≤ 1 :=
  (connect_disconnect_on_flag_change
    { m_any_mac := false, m_connected := true, m_last_rx_time := 0 } []).2
    [200000, 400000]

/-- C7: if processing a datagram turns the wildcard entry at position k into a
bound entry, its MAC is the sender MAC of that datagram, and after every
further sequence of datagrams (any senders, any clock values) the entry at k
still has that MAC and is still not a wildcard. -/
theorem bound_wildcard_never_rebinds (s : Engine) (clock : Nat) (pkt : Datagram)
    (k : Nat) (w w1 : OrviboS20Device)
    (hw : s.m_device_list[k]? = some w) (hany : w.m_any_mac = true)
    (hw1 : (checkRxPacket s clock (some pkt)).state.m_device_list[k]? = some w1)
    (hbound : w1.m_any_mac = false) :
    (∃ fr, parseFrame (pkt.bytes.take 64) = some fr
        ∧ w1.m_mac = readMac (pkt.bytes.take 64) fr.src_mac_off)
    ∧ ∀ rest : List (Nat × Datagram), ∃ w2,
        (receiveAll (checkRxPacket s clock (some pkt)).state rest).state.m_device_list[k]?
            = some w2
        ∧ w2.m_mac = w1.m_mac ∧ w2.m_any_mac = false := by
  constructor
  · rcases checkRxPacket_device_cases s clock (some pkt) with
      h | ⟨i, d, d2, hi, hl, _, ha⟩ | ⟨a, x, x2, _, _, _, hl, _, pkt2, fr, hp, hfr, hmac⟩
    · rw [h, hw] at hw1
      rw [← Option.some.inj hw1, hany] at hbound
      exact Bool.noConfusion hbound
    · rw [hl] at hw1
      rcases getElem?_set_cases _ _ _ _ _ hw1 with ⟨hki, hx, _⟩ | ⟨_, hold⟩
      · subst hki
        rw [hw] at hi
        rw [hx, ha, ← Option.some.inj hi, hany] at hbound
        exact Bool.noConfusion hbound
      · rw [hw] at hold
        rw [← Option.some.inj hold, hany] at hbound
        exact Bool.noConfusion hbound
    · rw [hl] at hw1
      rcases getElem?_set_cases _ _ _ _ _ hw1 with ⟨_, hx, _⟩ | ⟨_, hold⟩
      · have hpk : pkt2 = pkt := (Option.some.inj hp).symm
        subst hpk
        exact ⟨fr, hfr, by rw [hx]; exact hmac⟩
      · rw [hw] at hold
        rw [← Option.some.inj hold, hany] at hbound
        exact Bool.noConfusion hbound
  · intro rest
    exact receiveAll_bound_stable rest _ k w1 hw1 hbound

/-- Witness for C7: a wildcard bound by a frame from 01:02:03:04:05:06 keeps
that MAC when a frame from 0A:0B:0C:0D:0E:0F arrives afterwards. -/
theorem bound_wildcard_never_rebinds_witness :
    ∃ w2, (receiveAll
        (checkRxPacket (engineWith [OrviboS20Device.anyMac]) 5
          (some (stateChangeFrame ⟨1, 2, 3, 4, 5, 6⟩ 1))).state
        [(9, stateChangeFrame ⟨10, 11, 12, 13, 14, 15⟩ 0)]).state.m_device_list[0]?
          = some w2
      ∧ w2.m_mac = ⟨1, 2, 3, 4, 5, 6⟩ ∧ w2.m_any_mac = false :=
  (bound_wildcard_never_rebinds (engineWith [OrviboS20Device.anyMac]) 5
    (stateChangeFrame ⟨1, 2, 3, 4, 5, 6⟩ 1) 0 OrviboS20Device.anyMac
    { m_ip := 1, m_mac := ⟨1, 2, 3, 4, 5, 6⟩, m_any_mac := false, m_last_state := 1,
      m_connected := true, m_last_rx_time := 5 }
    rfl rfl (by decide) rfl).2 [(9, stateChangeFrame ⟨10, 11, 12, 13, 14, 15⟩ 0)]

/-- Binding of the first wildcard, wherever checkIfNewDevice returns: for a
valid frame whose sender MAC equals the MAC field of no entry and whose
found-device step does not fault, if position k holds the first wildcard
in list order, the device list afterwards is the old one with entry k replaced
by that entry bound to the sender MAC and address and then given the packet by
handlePacket, every other position is unchanged, and the notifications raised
are those of the found-device step followed by those of handlePacket on entry
k; if no wildcard exists the device list is unchanged and nothing but the
found-device step raises a notification; one of the two cases always applies;
list order is insertion order, since addDeviceToList appends at the end. -/
theorem unmatched_frame_binds_first_wildcard (s : Engine) (clock : Nat) (pkt : Datagram)
    (fr : Frame) (hfr : parseFrame (pkt.bytes.take 64) = some fr)
    (hret : (checkIfNewDevice s (readMac (pkt.bytes.take 64) fr.src_mac_off)).fault = false)
    (hnomatch : ∀ e ∈ s.m_device_list,
      e.m_mac ≠ readMac (pkt.bytes.take 64) fr.src_mac_off) :
    (∀ (k : Nat) (w : OrviboS20Device), s.m_device_list[k]? = some w →
        w.m_any_mac = true →
        (∀ j, j < k → ∀ e, s.m_device_list[j]? = some e → e.m_any_mac = false) →
        (checkRxPacket s clock (some pkt)).state.m_device_list
            = s.m_device_list.set k
                (handlePacket
                  { w with m_any_mac := false
                           m_mac := readMac (pkt.bytes.take 64) fr.src_mac_off
                           m_ip := pkt.ip }
                  clock fr.cmd ((pkt.bytes.take 64).drop fr.payload_off)
                  fr.payload_length).1
        ∧ (∃ w2, (checkRxPacket s clock (some pkt)).state.m_device_list[k]? = some w2
            ∧ w2.m_mac = readMac (pkt.bytes.take 64) fr.src_mac_off
            ∧ w2.m_any_mac = false ∧ w2.m_ip = pkt.ip)
        ∧ (∀ j, j ≠ k →
            (checkRxPacket s clock (some pkt)).state.m_device_list[j]?
              = s.m_device_list[j]?)
        ∧ (checkRxPacket s clock (some pkt)).fired
            = (checkIfNewDevice s (readMac (pkt.bytes.take 64) fr.src_mac_off)).fired
              ++ (handlePacket
                  { w with m_any_mac := false
                           m_mac := readMac (pkt.bytes.take 64) fr.src_mac_off
                           m_ip := pkt.ip }
                  clock fr.cmd ((pkt.bytes.take 64).drop fr.payload_off)
                  fr.payload_length).2.map (EngineFired.device k))
    ∧ ((∀ e ∈ s.m_device_list, e.m_any_mac = false) →
        (checkRxPacket s clock (some pkt)).state.m_device_list = s.m_device_list
        ∧ (checkRxPacket s clock (some pkt)).fired
            = (checkIfNewDevice s (readMac (pkt.bytes.take 64) fr.src_mac_off)).fired)
    ∧ ((∀ e ∈ s.m_device_list, e.m_any_mac = false)
        ∨ ∃ (k : Nat) (w : OrviboS20Device), s.m_device_list[k]? = some w
            ∧ w.m_any_mac = true
            ∧ ∀ j, j < k → ∀ e, s.m_device_list[j]? = some e → e.m_any_mac = false)
    ∧ (∀ (l : List OrviboS20Device) (dev : OrviboS20Device),
        addDeviceToList l dev = l ++ [dev]) := by
  have hdev := checkIfNewDevice_devices s (readMac (pkt.bytes.take 64) fr.src_mac_off)
  have hev := checkRxPacket_eval s clock pkt fr hfr
  rw [hret, hdev] at hev
  simp only [Bool.false_eq_true, if_false] at hev
  have hspec := deviceLoop_spec (readMac (pkt.bytes.take 64) fr.src_mac_off)
    s.m_device_list 0 none
  have hexh : (∀ e ∈ s.m_device_list, e.m_any_mac = false)
      ∨ ∃ (k : Nat) (w : OrviboS20Device), s.m_device_list[k]? = some w
          ∧ w.m_any_mac = true
          ∧ ∀ j, j < k → ∀ e, s.m_device_list[j]? = some e → e.m_any_mac = false := by
    rcases hspec with ⟨j, d, _, h2, h3, _⟩ |
      ⟨_, ⟨a, ha, _⟩ | ⟨_, _, hall⟩ | ⟨_, k2, w2, _, hk2, hw2, hbefore⟩⟩
    · exact absurd h3 (hnomatch d (List.getElem?_mem h2))
    · exact Option.noConfusion ha
    · exact Or.inl hall
    · exact Or.inr ⟨k2, w2, hk2, hw2, hbefore⟩
  refine ⟨?_, ?_, hexh, addDeviceToList_eq_append⟩
  · intro k w hk hw hfirst
    have hklen : k < s.m_device_list.length := (List.getElem?_eq_some_iff.mp hk).1
    have hloop : deviceLoop (readMac (pkt.bytes.take 64) fr.src_mac_off)
        s.m_device_list 0 none = LoopExit.finished (some k) := by
      rcases hspec with ⟨j, d, _, h2, h3, _⟩ |
        ⟨_, ⟨a, ha, _⟩ | ⟨_, _, hall⟩ | ⟨_, k2, w2, hf, hk2, hw2, hbefore⟩⟩
      · exact absurd h3 (hnomatch d (List.getElem?_mem h2))
      · exact Option.noConfusion ha
      · have := hall w (List.getElem?_mem hk)
        rw [hw] at this
        exact Bool.noConfusion this
      · have hkk : k2 = k := by
          rcases Nat.lt_trichotomy k2 k with hlt | heq | hgt
          · have := hfirst k2 hlt w2 hk2
            rw [hw2] at this
            exact Bool.noConfusion this
          · exact heq
          · have := hbefore k hgt w hk
            rw [hw] at this
            exact Bool.noConfusion this
        rw [hf, hkk, Nat.zero_add]
    rw [hloop] at hev
    have hod := onDevice_devices
      (checkIfNewDevice s (readMac (pkt.bytes.take 64) fr.src_mac_off)).state k
      (fun d => handlePacket
        { d with m_any_mac := false
                 m_mac := readMac (pkt.bytes.take 64) fr.src_mac_off
                 m_ip := pkt.ip }
        clock fr.cmd ((pkt.bytes.take 64).drop fr.payload_off) fr.payload_length) w
      (by rw [hdev]; exact hk)
    have hid := handlePacket_identity
      { w with m_any_mac := false
               m_mac := readMac (pkt.bytes.take 64) fr.src_mac_off
               m_ip := pkt.ip }
      clock fr.cmd ((pkt.bytes.take 64).drop fr.payload_off) fr.payload_length
    have hlist : (checkRxPacket s clock (some pkt)).state.m_device_list
        = s.m_device_list.set k
            (handlePacket
              { w with m_any_mac := false
                       m_mac := readMac (pkt.bytes.take 64) fr.src_mac_off
                       m_ip := pkt.ip }
              clock fr.cmd ((pkt.bytes.take 64).drop fr.payload_off)
              fr.payload_length).1 := by
      rw [hev]
      simp only []
      rw [hod.1, hdev]
    refine ⟨hlist, ?_, ?_, ?_⟩
    · refine ⟨_, ?_, hid.1, hid.2.1, hid.2.2⟩
      rw [hlist, List.getElem?_set]
      simp [hklen]
    · intro j hj
      rw [hlist, List.getElem?_set, if_neg (fun h => hj h.symm)]
    · rw [hev]
      simp only []
      rw [hod.2]
  · intro hnone
    have hloop : deviceLoop (readMac (pkt.bytes.take 64) fr.src_mac_off)
        s.m_device_list 0 none = LoopExit.finished none := by
      rcases hspec with ⟨j, d, _, h2, h3, _⟩ |
        ⟨_, ⟨a, ha, _⟩ | ⟨_, hf, _⟩ | ⟨_, k2, w2, _, hk2, hw2, _⟩⟩
      · exact absurd h3 (hnomatch d (List.getElem?_mem h2))
      · exact Option.noConfusion ha
      · exact hf
      · have := hnone w2 (List.getElem?_mem hk2)
        rw [hw2] at this
        exact Bool.noConfusion this
    rw [hloop] at hev
    rw [hev]
    exact ⟨hdev, rfl⟩

/-- Example with the found-device callback installed: devices [bound AA..,
wildcard, wildcard]; a frame from 01:02:03:04:05:06 binds the wildcard at
position 1 and leaves position 2 alone. -/
theorem unmatched_frame_binds_first_wildcard_witness :
    (checkRxPacket
        (engineWith [OrviboS20Device.withMac ⟨0xAA, 0xBB, 0xCC, 0xDD, 0xEE, 0xFF⟩,
          OrviboS20Device.anyMac, OrviboS20Device.anyMac]) 5
        (some (stateChangeFrame ⟨1, 2, 3, 4, 5, 6⟩ 1))).state.m_device_list[2]?
      = some OrviboS20Device.anyMac :=
  ((unmatched_frame_binds_first_wildcard
    (engineWith [OrviboS20Device.withMac ⟨0xAA, 0xBB, 0xCC, 0xDD, 0xEE, 0xFF⟩,
      OrviboS20Device.anyMac, OrviboS20Device.anyMac]) 5
    (stateChangeFrame ⟨1, 2, 3, 4, 5, 6⟩ 1) ⟨0x7366, 6, 18, 5⟩
    (by decide) (by decide) (by decide)).1 1 OrviboS20Device.anyMac rfl rfl
      (by decide)).2.2.1 2 (by decide)

/-- C9: if no two bound entries of the device list have the same MAC before a
call of checkRxPacket (with or without a pending datagram), no two bound
entries have the same MAC after it. -/
theorem checkRxPacket_keeps_bound_macs_distinct (s : Engine) (clock : Nat)
    (pending : Option Datagram) (h : NoDuplicateBound s.m_device_list) :
    NoDuplicateBound (checkRxPacket s clock pending).state.m_device_list := by
  rcases checkRxPacket_device_cases s clock pending with
    hl | ⟨i, d, d2, hi, hl, hm, ha⟩ | ⟨a, w, w2, _, _, hfresh, hl, _, _⟩
  · rw [hl]; exact h
  · rw [hl]
    have back : ∀ (p : Nat) (x : OrviboS20Device), (s.m_device_list.set i d2)[p]? = some x →
        ∃ x0, s.m_device_list[p]? = some x0 ∧ x0.m_mac = x.m_mac
          ∧ x0.m_any_mac = x.m_any_mac := by
      intro p x hp
      rcases getElem?_set_cases _ _ _ _ _ hp with ⟨hpi, hx, _⟩ | ⟨_, hold⟩
      · subst hpi
        subst hx
        exact ⟨d, hi, hm.symm, ha.symm⟩
      · exact ⟨x, hold, rfl, rfl⟩
    intro p q x y hpq hp hq hx hy
    obtain ⟨x0, hx0, hxm, hxa⟩ := back p x hp
    obtain ⟨y0, hy0, hym, hya⟩ := back q y hq
    rw [← hxm, ← hym]
    exact h p q x0 y0 hpq hx0 hy0 (by rw [hxa]; exact hx) (by rw [hya]; exact hy)
  · rw [hl]
    intro p q x y hpq hp hq hx hy
    rcases getElem?_set_cases _ _ _ _ _ hp with ⟨hpa, hxw, _⟩ | ⟨hpa, hpold⟩
    · rcases getElem?_set_cases _ _ _ _ _ hq with ⟨hqa, _, _⟩ | ⟨_, hqold⟩
      · exact absurd (hpa.trans hqa.symm) hpq
      · rw [hxw]
        exact fun hc => hfresh y (List.getElem?_mem hqold) hc.symm
    · rcases getElem?_set_cases _ _ _ _ _ hq with ⟨_, hyw, _⟩ | ⟨_, hqold⟩
      · rw [hyw]
        exact hfresh x (List.getElem?_mem hpold)
      · exact h p q x y hpq hpold hqold hx hy

/-- Witness for C9: two bound devices with different MACs and a wildcard; after
a frame from a third MAC binds the wildcard the bound MACs are still distinct. -/
theorem checkRxPacket_keeps_bound_macs_distinct_witness :
    NoDuplicateBound (checkRxPacket
      (engineWith [OrviboS20Device.withMac ⟨0xAA, 0xBB, 0xCC, 0xDD, 0xEE, 0xFF⟩,
        OrviboS20Device.anyMac]) 5
      (some (stateChangeFrame ⟨1, 2, 3, 4, 5, 6⟩ 1))).state.m_device_list :=
  checkRxPacket_keeps_bound_macs_distinct
    (engineWith [OrviboS20Device.withMac ⟨0xAA, 0xBB, 0xCC, 0xDD, 0xEE, 0xFF⟩,
      OrviboS20Device.anyMac]) 5
    (some (stateChangeFrame ⟨1, 2, 3, 4, 5, 6⟩ 1))
    (by
      intro i j a b hij hi hj ha hb
      match i, j with
      | 0, 0 => exact absurd rfl hij
      | 0, 1 =>
        simp [engineWith] at hj
        subst hj
        exact Bool.noConfusion hb
      | 0, (n + 2) => simp [engineWith] at hj
      | 1, _ =>
        simp [engineWith] at hi
        subst hi
        exact Bool.noConfusion ha
      | (n + 2), _ => simp [engineWith] at hi)

/-- C10 (code at the failing input): with a single wildcard device registered
and a valid frame whose sender MAC is 00:00:00:00:00:00, the device loop leaves
by its MAC comparison at the wildcard (position 0); the wildcard handles the
packet (connect and state-change are raised) and is still a wildcard with MAC
00:00:00:00:00:00 afterwards; a later frame from 01:02:03:04:05:06 then binds
the same entry to that other sender. -/
theorem wildcard_selected_by_zero_mac :
    deviceLoop ZERO_MAC [OrviboS20Device.anyMac] 0 none = LoopExit.matched 0
    ∧ checkRxPacket (engineWith [OrviboS20Device.anyMac]) 5
          (some (stateChangeFrame ZERO_MAC 1))
        = ⟨{ m_found_device_callback := true
             known_orvibo_mac_list := [ZERO_MAC]
             m_device_list :=
               [{ m_ip := 1, m_mac := ZERO_MAC, m_any_mac := true, m_last_state := 1,
                  m_connected := true, m_last_rx_time := 5 }] },
            [EngineFired.foundDevice ZERO_MAC true,
              EngineFired.device 0 ⟨Notification.connect, false⟩,
              EngineFired.device 0 ⟨Notification.stateChange true, false⟩],
            false⟩
    ∧ (receiveAll (engineWith [OrviboS20Device.anyMac])
          [(5, stateChangeFrame ZERO_MAC 1),
            (9, stateChangeFrame ⟨1, 2, 3, 4, 5, 6⟩ 1)]).state.m_device_list
        = [{ m_ip := 1, m_mac := ⟨1, 2, 3, 4, 5, 6⟩, m_any_mac := false, m_last_state := 1,
             m_connected := true, m_last_rx_time := 9 }] := by
  refine ⟨by decide, by decide, by decide⟩

/-! ## Known-MAC list -/

theorem knownMac_iff (mac : Mac) (l : List Mac) : knownMac mac l = true ↔ mac ∈ l := by
  induction l with
  | nil => simp [knownMac]
  | cons m rest ih =>
    unfold knownMac
    by_cases h : m = mac
    · simp [h]
    · simp only [h, if_false, ih, List.mem_cons]
      constructor
      · intro hm; exact Or.inr hm
      · intro hm
        rcases hm with hm | hm
        · exact absurd hm.symm h
        · exact hm

theorem checkIfNewDevice_spec (s : Engine) (mac : Mac) :
    (checkIfNewDevice s mac).state.m_found_device_callback = s.m_found_device_callback
    ∧ (checkIfNewDevice s mac).state.m_device_list = s.m_device_list
    ∧ ((s.known_orvibo_mac_list.length < 10 ∧ mac ∉ s.known_orvibo_mac_list) →
        (checkIfNewDevice s mac).state.known_orvibo_mac_list
            = s.known_orvibo_mac_list ++ [mac]
          ∧ (checkIfNewDevice s mac).fired
              = [EngineFired.foundDevice mac s.m_found_device_callback]
          ∧ (checkIfNewDevice s mac).fault = !s.m_found_device_callback)
    ∧ (¬ (s.known_orvibo_mac_list.length < 10 ∧ mac ∉ s.known_orvibo_mac_list) →
        (checkIfNewDevice s mac).state = s
          ∧ (checkIfNewDevice s mac).fired = []
          ∧ (checkIfNewDevice s mac).fault = false) := by
  unfold checkIfNewDevice
  simp only [MAX_ORVIBO_DEVICES]
  by_cases hfull : s.known_orvibo_mac_list.length ≥ 10
  · rw [if_pos hfull]
    refine ⟨rfl, rfl, ?_, ?_⟩
    · intro h; omega
    · intro _; exact ⟨rfl, rfl, rfl⟩
  · rw [if_neg hfull]
    by_cases hk : knownMac mac s.known_orvibo_mac_list = true
    · rw [if_pos hk]
      refine ⟨rfl, rfl, ?_, ?_⟩
      · intro h; exact absurd ((knownMac_iff _ _).mp hk) h.2
      · intro _; exact ⟨rfl, rfl, rfl⟩
    · rw [if_neg hk]
      refine ⟨rfl, rfl, ?_, ?_⟩
      · intro _; exact ⟨rfl, rfl, rfl⟩
      · intro h
        exfalso
        apply h
        exact ⟨by omega, fun hm => hk ((knownMac_iff _ _).mpr hm)⟩

theorem foundMacs_append (a b : List EngineFired) :
    foundMacs (a ++ b) = foundMacs a ++ foundMacs b := by
  induction a with
  | nil => rfl
  | cons x rest ih =>
    cases x with
    | foundDevice mac dl => simp [foundMacs, ih]
    | device i f => simp [foundMacs, ih]

theorem foundMacs_device (i : Nat) (l : List Fired) :
    foundMacs (l.map (EngineFired.device i)) = [] := by
  induction l with
  | nil => rfl
  | cons x rest ih => simp [foundMacs, ih]

theorem onDevice_cache (s : Engine) (i : Nat)
    (f : OrviboS20Device → OrviboS20Device × List Fired) :
    (onDevice s i f).1.known_orvibo_mac_list = s.known_orvibo_mac_list
    ∧ (onDevice s i f).1.m_found_device_callback = s.m_found_device_callback
    ∧ foundMacs (onDevice s i f).2 = [] := by
  unfold onDevice
  split
  · exact ⟨rfl, rfl, rfl⟩
  · exact ⟨rfl, rfl, foundMacs_device _ _⟩

theorem checkRxPacket_cache (s : Engine) (clock : Nat) (pkt : Datagram) (fr : Frame)
    (hfr : parseFrame (pkt.bytes.take 64) = some fr) :
    (checkRxPacket s clock (some pkt)).state.known_orvibo_mac_list
        = (checkIfNewDevice s (readMac (pkt.bytes.take 64) fr.src_mac_off)).state.known_orvibo_mac_list
    ∧ (checkRxPacket s clock (some pkt)).state.m_found_device_callback
        = s.m_found_device_callback
    ∧ foundMacs (checkRxPacket s clock (some pkt)).fired
        = foundMacs (checkIfNewDevice s (readMac (pkt.bytes.take 64) fr.src_mac_off)).fired
    ∧ (checkRxPacket s clock (some pkt)).fault
        = (checkIfNewDevice s (readMac (pkt.bytes.take 64) fr.src_mac_off)).fault := by
  rw [checkRxPacket_eval s clock pkt fr hfr]
  have hcb := (checkIfNewDevice_spec s (readMac (pkt.bytes.take 64) fr.src_mac_off)).1
  by_cases hfault : (checkIfNewDevice s (readMac (pkt.bytes.take 64) fr.src_mac_off)).fault
      = true
  · rw [if_pos hfault]
    exact ⟨rfl, hcb, rfl, rfl⟩
  · rw [if_neg hfault]
    have hff : (checkIfNewDevice s (readMac (pkt.bytes.take 64) fr.src_mac_off)).fault
        = false := by
      cases h : (checkIfNewDevice s (readMac (pkt.bytes.take 64) fr.src_mac_off)).fault
      · rfl
      · exact absurd h hfault
    split
    · rename_i iter _
      have h := onDevice_cache
        (checkIfNewDevice s (readMac (pkt.bytes.take 64) fr.src_mac_off)).state iter
        (fun d => handlePacket { d with m_ip := pkt.ip } clock fr.cmd
          ((pkt.bytes.take 64).drop fr.payload_off) fr.payload_length)
      refine ⟨h.1, by rw [← hcb]; exact h.2.1, ?_, hff.symm⟩
      simp only [foundMacs_append, h.2.2, List.append_nil]
    · rename_i any_mac_dev _
      have h := onDevice_cache
        (checkIfNewDevice s (readMac (pkt.bytes.take 64) fr.src_mac_off)).state any_mac_dev
        (fun d => handlePacket
          { d with m_any_mac := false
                   m_mac := readMac (pkt.bytes.take 64) fr.src_mac_off
                   m_ip := pkt.ip }
          clock fr.cmd ((pkt.bytes.take 64).drop fr.payload_off) fr.payload_length)
      refine ⟨h.1, by rw [← hcb]; exact h.2.1, ?_, hff.symm⟩
      simp only [foundMacs_append, h.2.2, List.append_nil]
    · exact ⟨rfl, hcb, rfl, hff.symm⟩

theorem checkIfNewDevice_registry_free (s : Engine) (devs : List OrviboS20Device)
    (mac : Mac) :
    (checkIfNewDevice { s with m_device_list := devs } mac).fired
        = (checkIfNewDevice s mac).fired
    ∧ (checkIfNewDevice { s with m_device_list := devs } mac).state.known_orvibo_mac_list
        = (checkIfNewDevice s mac).state.known_orvibo_mac_list := by
  unfold checkIfNewDevice
  simp only []
  split
  · exact ⟨rfl, rfl⟩
  · split
    · exact ⟨rfl, rfl⟩
    · exact ⟨rfl, rfl⟩

theorem checkRxPacket_cache_step (s : Engine) (clock : Nat) (pkt : Datagram)
    (hcb : s.m_found_device_callback = true) (hnd : s.known_orvibo_mac_list.Nodup)
    (hcap : s.known_orvibo_mac_list.length ≤ 10) :
    (checkRxPacket s clock (some pkt)).fault = false
    ∧ (checkRxPacket s clock (some pkt)).state.m_found_device_callback = true
    ∧ (checkRxPacket s clock (some pkt)).state.known_orvibo_mac_list
        = s.known_orvibo_mac_list ++ foundMacs (checkRxPacket s clock (some pkt)).fired
    ∧ (checkRxPacket s clock (some pkt)).state.known_orvibo_mac_list.Nodup
    ∧ (checkRxPacket s clock (some pkt)).state.known_orvibo_mac_list.length ≤ 10 := by
  cases hfr : parseFrame (pkt.bytes.take 64) with
  | none =>
    rw [checkRxPacket_none_frame s clock pkt hfr]
    exact ⟨rfl, hcb, by simp [foundMacs], hnd, hcap⟩
  | some fr =>
    obtain ⟨h1, h2, h3, h4⟩ := checkRxPacket_cache s clock pkt fr hfr
    obtain ⟨_, _, hnew, hold⟩ :=
      checkIfNewDevice_spec s (readMac (pkt.bytes.take 64) fr.src_mac_off)
    rw [h1, h2, h3, h4]
    by_cases hn : s.known_orvibo_mac_list.length < 10
        ∧ readMac (pkt.bytes.take 64) fr.src_mac_off ∉ s.known_orvibo_mac_list
    · obtain ⟨k1, k2, k3⟩ := hnew hn
      rw [k1, k2, k3, hcb]
      refine ⟨rfl, rfl, by simp [foundMacs], ?_, ?_⟩
      · rw [List.nodup_append]
        refine ⟨hnd, List.nodup_singleton _, ?_⟩
        intro a ha hb
        rw [List.mem_singleton] at hb
        rw [hb] at ha
        exact hn.2 ha
      · rw [List.length_append, List.length_singleton]
        omega
    · obtain ⟨k1, k2, k3⟩ := hold hn
      rw [k1, k2, k3]
      exact ⟨rfl, hcb, by simp [foundMacs], hnd, hcap⟩

theorem receiveAll_cache (frames : List (Nat × Datagram)) :
    ∀ s : Engine, s.m_found_device_callback = true → s.known_orvibo_mac_list.Nodup →
      s.known_orvibo_mac_list.length ≤ 10 →
      (receiveAll s frames).fault = false
      ∧ (receiveAll s frames).state.m_found_device_callback = true
      ∧ (receiveAll s frames).state.known_orvibo_mac_list
          = s.known_orvibo_mac_list ++ foundMacs (receiveAll s frames).fired
      ∧ (receiveAll s frames).state.known_orvibo_mac_list.Nodup
      ∧ (receiveAll s frames).state.known_orvibo_mac_list.length ≤ 10 := by
  induction frames with
  | nil =>
    intro s hcb hnd hcap
    exact ⟨rfl, hcb, by simp [receiveAll, foundMacs], hnd, hcap⟩
  | cons p rest ih =>
    intro s hcb hnd hcap
    obtain ⟨clock, pkt⟩ := p
    obtain ⟨s1, s2, s3, s4, s5⟩ := checkRxPacket_cache_step s clock pkt hcb hnd hcap
    obtain ⟨r1, r2, r3, r4, r5⟩ := ih (checkRxPacket s clock (some pkt)).state s2 s4 s5
    unfold receiveAll
    simp only [s1, Bool.false_eq_true, if_false]
    refine ⟨r1, r2, ?_, r4, r5⟩
    rw [r3, s3, foundMacs_append, List.append_assoc]

/-! ## Claims on the known-MAC list and on absent callbacks -/

/-- C11: with a found-device callback installed and a duplicate-free known-MAC
list of at most 10 entries (it is empty at start), after any sequence of
datagrams a valid frame raises the found-device notification exactly when its
sender MAC is not in the list and the list holds fewer than 10 MACs, and then
raises it once; nothing faults; the list stays duplicate-free and grows exactly
by the MACs reported, so the reported MACs are pairwise distinct, none of them
was in the list before, and list size plus reports never exceeds 10; the
decision is the same for every device list. -/
theorem found_device_iff_new_and_room (s : Engine)
    (hcb : s.m_found_device_callback = true) (hnd : s.known_orvibo_mac_list.Nodup)
    (hcap : s.known_orvibo_mac_list.length ≤ 10)
    (frames : List (Nat × Datagram)) (clock : Nat) (pkt : Datagram) (fr : Frame)
    (hfr : parseFrame (pkt.bytes.take 64) = some fr) :
    (receiveAll s frames).fault = false
    ∧ (checkRxPacket (receiveAll s frames).state clock (some pkt)).fault = false
    ∧ (foundMacs (checkRxPacket (receiveAll s frames).state clock (some pkt)).fired
          = [readMac (pkt.bytes.take 64) fr.src_mac_off]
        ↔ (readMac (pkt.bytes.take 64) fr.src_mac_off
              ∉ (receiveAll s frames).state.known_orvibo_mac_list
            ∧ (receiveAll s frames).state.known_orvibo_mac_list.length < 10))
    ∧ (foundMacs (checkRxPacket (receiveAll s frames).state clock (some pkt)).fired = []
        ↔ ¬ (readMac (pkt.bytes.take 64) fr.src_mac_off
              ∉ (receiveAll s frames).state.known_orvibo_mac_list
            ∧ (receiveAll s frames).state.known_orvibo_mac_list.length < 10))
    ∧ (receiveAll s frames).state.known_orvibo_mac_list.Nodup
    ∧ (receiveAll s frames).state.known_orvibo_mac_list
        = s.known_orvibo_mac_list ++ foundMacs (receiveAll s frames).fired
    ∧ (foundMacs (receiveAll s frames).fired).Nodup
    ∧ (∀ m ∈ foundMacs (receiveAll s frames).fired, m ∉ s.known_orvibo_mac_list)
    ∧ s.known_orvibo_mac_list.length + (foundMacs (receiveAll s frames).fired).length ≤ 10
    ∧ (∀ devs : List OrviboS20Device,
        foundMacs (checkRxPacket { (receiveAll s frames).state with m_device_list := devs }
            clock (some pkt)).fired
          = foundMacs (checkRxPacket (receiveAll s frames).state clock (some pkt)).fired) := by
  obtain ⟨r1, r2, r3, r4, r5⟩ := receiveAll_cache frames s hcb hnd hcap
  obtain ⟨s1, _, _, _, _⟩ :=
    checkRxPacket_cache_step (receiveAll s frames).state clock pkt r2 r4 r5
  obtain ⟨_, _, c3, _⟩ := checkRxPacket_cache (receiveAll s frames).state clock pkt fr hfr
  obtain ⟨_, _, hnew, hold⟩ :=
    checkIfNewDevice_spec (receiveAll s frames).state
      (readMac (pkt.bytes.take 64) fr.src_mac_off)
  have hnd2 := r4
  rw [r3, List.nodup_append] at hnd2
  refine ⟨r1, s1, ?_, ?_, r4, r3, hnd2.2.1, ?_, ?_, ?_⟩
  · rw [c3]
    constructor
    · intro h
      by_contra hn
      have hn2 : ¬ ((receiveAll s frames).state.known_orvibo_mac_list.length < 10
          ∧ readMac (pkt.bytes.take 64) fr.src_mac_off
              ∉ (receiveAll s frames).state.known_orvibo_mac_list) :=
        fun hc => hn ⟨hc.2, hc.1⟩
      rw [(hold hn2).2.1] at h
      simp [foundMacs] at h
    · intro h
      rw [(hnew ⟨h.2, h.1⟩).2.1]
      rfl
  · rw [c3]
    constructor
    · intro h hc
      rw [(hnew ⟨hc.2, hc.1⟩).2.1] at h
      simp [foundMacs] at h
    · intro h
      have hn2 : ¬ ((receiveAll s frames).state.known_orvibo_mac_list.length < 10
          ∧ readMac (pkt.bytes.take 64) fr.src_mac_off
              ∉ (receiveAll s frames).state.known_orvibo_mac_list) :=
        fun hc => h ⟨hc.2, hc.1⟩
      rw [(hold hn2).2.1]
      rfl
  · intro m hm hk
    exact hnd2.2.2 hk hm
  · have hl := r5
    rw [r3, List.length_append] at hl
    exact hl
  · intro devs
    have hfr2 := hfr
    obtain ⟨_, _, d3, _⟩ := checkRxPacket_cache
      { (receiveAll s frames).state with m_device_list := devs } clock pkt fr hfr
    rw [d3, c3, (checkIfNewDevice_registry_free _ devs _).1]

/-- Witness for C11: from an empty list, a frame from 01:02:03:04:05:06 is
reported the first time and not the second time. -/
theorem found_device_iff_new_and_room_witness :
    foundMacs (checkRxPacket
        (receiveAll (engineWith [OrviboS20Device.anyMac])
          [(5, stateChangeFrame ⟨1, 2, 3, 4, 5, 6⟩ 1)]).state 9
        (some (stateChangeFrame ⟨1, 2, 3, 4, 5, 6⟩ 0))).fired = [] :=
  (found_device_iff_new_and_room (engineWith [OrviboS20Device.anyMac]) rfl
    (by decide) (by decide) [(5, stateChangeFrame ⟨1, 2, 3, 4, 5, 6⟩ 1)] 9
    (stateChangeFrame ⟨1, 2, 3, 4, 5, 6⟩ 0) ⟨0x7366, 6, 18, 5⟩ (by decide)).2.2.2.1.mpr
    (by decide)

/-- C20 (code at the failing input): with no callback installed anywhere, a
valid frame from a MAC that is not yet in the known-MAC list makes
checkIfNewDevice call the absent found-device callback: checkRxPacket stops
there with a fault, the device list untouched; a timeout sweep on the same
engine does not fault. -/
theorem absent_found_device_callback_faults :
    checkRxPacket
        { m_found_device_callback := false, known_orvibo_mac_list := [],
          m_device_list := [OrviboS20Device.anyMac] } 5
        (some (stateChangeFrame ⟨1, 2, 3, 4, 5, 6⟩ 1))
      = ⟨{ m_found_device_callback := false,
           known_orvibo_mac_list := [⟨1, 2, 3, 4, 5, 6⟩],
           m_device_list := [OrviboS20Device.anyMac] },
          [EngineFired.foundDevice ⟨1, 2, 3, 4, 5, 6⟩ false], true⟩
    ∧ (checkTimeouts
        { m_found_device_callback := false, known_orvibo_mac_list := [],
          m_device_list := [{ m_any_mac := false, m_connected := true }] } 200000).fault
      = false := by
  refine ⟨by decide, by decide⟩

end OrviboS20

namespace OrviboS20WiFiPair

open OrviboS20 (Mac millis sub32)

/-! ## Auxiliary facts on the pairing machine -/

theorem checkRxPacket_actions (m : OrviboS20WiFiPairClass) (pending : Option (List Char)) :
    ((checkRxPacket m pending).2 = []
      ∨ ((checkRxPacket m pending).2 = [Action.sendString TXT_ACK]
          ∧ (checkRxPacket m pending).1 = PacketType.PKT_OK))
    ∧ ((checkRxPacket m pending).1 ≠ PacketType.PKT_OK → (checkRxPacket m pending).2 = []) := by
  unfold checkRxPacket
  cases pending with
  | none => simp
  | some text =>
    simp only []
    split
    · simp
    · split
      · simp
      · split
        · simp
        · split <;> simp

theorem checkRxPacket_none (m : OrviboS20WiFiPairClass) :
    checkRxPacket m none = (PacketType.PKT_NONE, []) := rfl

theorem scanLoop_first (results : List ScanResult) :
    (scanLoop results = none ∧ ∀ r ∈ results, r.ssid ≠ WIWO_S20_SSID)
    ∨ ∃ (i : Nat) (r : ScanResult), results[i]? = some r ∧ r.ssid = WIWO_S20_SSID
        ∧ (∀ j, j < i → ∀ q : ScanResult, results[j]? = some q → q.ssid ≠ WIWO_S20_SSID)
        ∧ scanLoop results = some r.bssid := by
  induction results with
  | nil => left; exact ⟨rfl, by simp⟩
  | cons x rest ih =>
    by_cases hx : x.ssid = WIWO_S20_SSID
    · right
      refine ⟨0, x, by simp, hx, ?_, by simp [scanLoop, hx]⟩
      intro j hj
      omega
    · have hstep : scanLoop (x :: rest) = scanLoop rest := by simp [scanLoop, hx]
      rcases ih with ⟨hn, hall⟩ | ⟨i, r, hi, hr, hbefore, hs⟩
      · left
        refine ⟨by rw [hstep]; exact hn, ?_⟩
        intro r hr
        simp only [List.mem_cons] at hr
        rcases hr with rfl | hr
        · exact hx
        · exact hall r hr
      · right
        refine ⟨i + 1, r, by simpa using hi, hr, ?_, by rw [hstep]; exact hs⟩
        intro j hj q hq
        cases j with
        | zero =>
          simp at hq
          subst hq
          exact hx
        | succ j2 => exact hbefore j2 (by omega) q (by simpa using hq)

theorem scanLoop_of_first (results : List ScanResult) (i : Nat) (r : ScanResult)
    (hi : results[i]? = some r) (hr : r.ssid = WIWO_S20_SSID)
    (hbefore : ∀ j, j < i → ∀ q : ScanResult, results[j]? = some q →
      q.ssid ≠ WIWO_S20_SSID) :
    scanLoop results = some r.bssid := by
  rcases scanLoop_first results with ⟨_, hall⟩ | ⟨i2, r2, hi2, hr2, hb2, hs⟩
  · exact absurd hr (hall r (List.getElem?_mem hi))
  · rcases Nat.lt_trichotomy i2 i with hlt | heq | hgt
    · exact absurd hr2 (hbefore i2 hlt r2 hi2)
    · subst heq
      rw [hi] at hi2
      rw [hs, ← Option.some.inj hi2]
    · exact absurd hr (hb2 i hgt r hi)

theorem tickTimers_fields (m : OrviboS20WiFiPairClass) (clock : Nat) :
    (tickTimers m clock).m_state = m.m_state
    ∧ (tickTimers m clock).m_current_cmd = m.m_current_cmd
    ∧ (tickTimers m clock).m_cmd_retransmit_counter = m.m_cmd_retransmit_counter
    ∧ (tickTimers m clock).m_found_device_cb = m.m_found_device_cb
    ∧ (tickTimers m clock).m_sending_cmd_cb = m.m_sending_cmd_cb
    ∧ (tickTimers m clock).m_stopped_cb = m.m_stopped_cb
    ∧ (tickTimers m clock).m_success_cb = m.m_success_cb
    ∧ (tickTimers m clock).m_ssid = m.m_ssid
    ∧ (tickTimers m clock).m_passphrase = m.m_passphrase
    ∧ (tickTimers m clock).m_state_timer ≤ m.m_state_timer
    ∧ (tickTimers m clock).m_tmo_timer ≤ m.m_tmo_timer := by
  unfold tickTimers
  split
  · simp only []
    split <;> split <;> simp
  · simp

theorem countP_ack (m : OrviboS20WiFiPairClass) (pending : Option (List Char))
    (q : Action → Bool) (hq : q (Action.sendString TXT_ACK) = false) :
    (checkRxPacket m pending).2.countP q = 0 := by
  rcases (checkRxPacket_actions m pending).1 with h | ⟨h, _⟩
  · rw [h]; rfl
  · rw [h]; simp [List.countP_cons, hq]

/-! ## Claims on the pairing machine -/

/-- C12: in state Scan with the global deadline not expired and a completed
scan, if the result at index i is the lowest-index result whose SSID is
"WiWo-S20", executeState returns Connect and raises the found-device
notification exactly once, with the BSSID of that result (then starts the
association); this happens whenever some result has that SSID; if no result
has it, nothing is raised and Scan is re-entered (a new scan is started). -/
theorem scan_finds_lowest_index_target (m : OrviboS20WiFiPairClass) (env : Env)
    (results : List ScanResult) (hscan : env.scan = some results)
    (hglobal : 0 < (tickTimers m env.clock).m_tmo_timer) :
    (∀ (i : Nat) (r : ScanResult), results[i]? = some r → r.ssid = WIWO_S20_SSID →
        (∀ j, j < i → ∀ q : ScanResult, results[j]? = some q →
          q.ssid ≠ WIWO_S20_SSID) →
        (executeState m env State.S_SCAN).ret = State.S_CONNECT
        ∧ (executeState m env State.S_SCAN).actions
            = (checkRxPacket m env.pending).2
              ++ [Action.foundDevice r.bssid m.m_found_device_cb,
                  Action.wifiBegin WIWO_S20_SSID])
    ∧ ((∃ r ∈ results, r.ssid = WIWO_S20_SSID) →
        (executeState m env State.S_SCAN).ret = State.S_CONNECT
        ∧ (executeState m env State.S_SCAN).actions.countP Action.isFoundDevice = 1)
    ∧ ((∀ r ∈ results, r.ssid ≠ WIWO_S20_SSID) →
        (executeState m env State.S_SCAN).ret = State.S_SCAN
        ∧ (executeState m env State.S_SCAN).actions
            = (checkRxPacket m env.pending).2 ++ [Action.wifiScanNetworks]
        ∧ (executeState m env State.S_SCAN).actions.countP Action.isFoundDevice = 0) := by
  have hng : ¬ (tickTimers m env.clock).m_tmo_timer ≤ 0 := by omega
  have hcb := (tickTimers_fields m env.clock).2.2.2.1
  have hfound : ∀ b : Mac, scanLoop results = some b →
      (executeState m env State.S_SCAN).ret = State.S_CONNECT
      ∧ (executeState m env State.S_SCAN).actions
          = (checkRxPacket m env.pending).2
            ++ [Action.foundDevice b m.m_found_device_cb,
                Action.wifiBegin WIWO_S20_SSID] := by
    intro b hb
    unfold executeState
    simp [hng, hscan, hb, enterState, Result.after, hcb]
  have hnone : scanLoop results = none →
      (executeState m env State.S_SCAN).ret = State.S_SCAN
      ∧ (executeState m env State.S_SCAN).actions
          = (checkRxPacket m env.pending).2 ++ [Action.wifiScanNetworks] := by
    intro hb
    unfold executeState
    simp [hng, hscan, hb, enterState, Result.after]
  have hack := countP_ack m env.pending Action.isFoundDevice rfl
  refine ⟨?_, ?_, ?_⟩
  · intro i r hi hr hbefore
    exact hfound r.bssid (scanLoop_of_first results i r hi hr hbefore)
  · intro hex
    obtain ⟨r0, hr0, hs0⟩ := hex
    rcases scanLoop_first results with ⟨_, hall⟩ | ⟨i, r, _, _, _, hs⟩
    · exact absurd hs0 (hall r0 hr0)
    · obtain ⟨h1, h2⟩ := hfound r.bssid hs
      refine ⟨h1, ?_⟩
      rw [h2, List.countP_append, hack]
      simp [List.countP_cons, Action.isFoundDevice]
  · intro hall
    rcases scanLoop_first results with ⟨hn, _⟩ | ⟨i, r, hi, hr, _, _⟩
    · obtain ⟨h1, h2⟩ := hnone hn
      refine ⟨h1, h2, ?_⟩
      rw [h2, List.countP_append, hack]
      simp [List.countP_cons, Action.isFoundDevice]
    · exact absurd hr (hall r (List.getElem?_mem hi))

/-- Witness for C12: three scan results with "WiWo-S20" at index 2. -/
theorem scan_finds_lowest_index_target_witness :
    (executeState (machineIn State.S_SCAN 0 0 0)
        (envWith none (some [⟨"home", ⟨1, 1, 1, 1, 1, 1⟩⟩, ⟨"cafe", ⟨2, 2, 2, 2, 2, 2⟩⟩,
          ⟨"WiWo-S20", ⟨0xAC, 0xCF, 0x23, 7, 8, 9⟩⟩])) State.S_SCAN).ret = State.S_CONNECT
    ∧ (executeState (machineIn State.S_SCAN 0 0 0)
        (envWith none (some [⟨"home", ⟨1, 1, 1, 1, 1, 1⟩⟩, ⟨"cafe", ⟨2, 2, 2, 2, 2, 2⟩⟩,
          ⟨"WiWo-S20", ⟨0xAC, 0xCF, 0x23, 7, 8, 9⟩⟩])) State.S_SCAN).actions
        = (checkRxPacket (machineIn State.S_SCAN 0 0 0) none).2
          ++ [Action.foundDevice ⟨0xAC, 0xCF, 0x23, 7, 8, 9⟩ false,
              Action.wifiBegin WIWO_S20_SSID] :=
  (scan_finds_lowest_index_target (machineIn State.S_SCAN 0 0 0)
    (envWith none (some [⟨"home", ⟨1, 1, 1, 1, 1, 1⟩⟩, ⟨"cafe", ⟨2, 2, 2, 2, 2, 2⟩⟩,
      ⟨"WiWo-S20", ⟨0xAC, 0xCF, 0x23, 7, 8, 9⟩⟩]))
    [⟨"home", ⟨1, 1, 1, 1, 1, 1⟩⟩, ⟨"cafe", ⟨2, 2, 2, 2, 2, 2⟩⟩,
      ⟨"WiWo-S20", ⟨0xAC, 0xCF, 0x23, 7, 8, 9⟩⟩]
    rfl (by decide)).1 2 ⟨"WiWo-S20", ⟨0xAC, 0xCF, 0x23, 7, 8, 9⟩⟩ rfl rfl
    (by
      intro j hj q hq
      match j, hj with
      | 0, _ =>
        simp at hq
        subst hq
        decide
      | 1, _ =>
        simp at hq
        subst hq
        decide)

/-- C13 (code at the failing input): a machine in state Connect with a stop
callback installed whose global countdown is 0 is stopped by handle with the
stop notification carrying REASON_STOPPED_BY_USER, not REASON_TIMEOUT; and for
every machine in an active state, entering PairingComplete, CommandFailed or
Timeout raises the stop notification with REASON_STOPPED_BY_USER, because
`enterState(S_STOPPED)` switches on the member m_state, which still holds the
active state. -/
theorem stop_reason_always_by_user :
    (handle { machineIn State.S_CONNECT 0 0 5 with m_tmo_timer := 0, m_stopped_cb := true }
        (envWith none none)).2
      = [Action.wifiDisconnect, Action.udpStop,
          Action.stopped OrviboStopReason.REASON_STOPPED_BY_USER true]
    ∧ (handle { machineIn State.S_CONNECT 0 0 5 with m_tmo_timer := 0, m_stopped_cb := true }
        (envWith none none)).1.m_state = State.S_STOPPED
    ∧ ∀ (m : OrviboS20WiFiPairClass) (env : Env), m.m_state.isActiveState = true →
        (enterState m env State.S_TIMEOUT).actions
            = [Action.wifiDisconnect, Action.udpStop,
                Action.stopped OrviboStopReason.REASON_STOPPED_BY_USER m.m_stopped_cb]
        ∧ (enterState m env State.S_COMMAND_FAILED).actions
            = [Action.wifiDisconnect, Action.udpStop,
                Action.stopped OrviboStopReason.REASON_STOPPED_BY_USER m.m_stopped_cb]
        ∧ (enterState m env State.S_PAIRING_COMPLETE).actions
            = [Action.success env.bssid m.m_success_cb, Action.wifiDisconnect,
                Action.udpStop,
                Action.stopped OrviboStopReason.REASON_STOPPED_BY_USER m.m_stopped_cb] := by
  refine ⟨by decide, by decide, ?_⟩
  intro m env hact
  cases hs : m.m_state <;> rw [hs] at hact <;>
    simp [State.isActiveState] at hact <;>
    simp [enterState, enterStopped, Result.after, hs, stopReason]

theorem stop_from_stopped (m : OrviboS20WiFiPairClass) (env : Env)
    (h : m.m_state = State.S_STOPPED) : stop m env = (m, [Action.wifiDisconnect]) := by
  cases m
  simp only [] at h
  subst h
  simp [stop, enterState, enterStopped]

theorem stop_state (m : OrviboS20WiFiPairClass) (env : Env) :
    (stop m env).1.m_state = State.S_STOPPED
    ∧ (stop m env).2.countP Action.isStopped ≤ 1 := by
  by_cases h : m.m_state = State.S_STOPPED
  · rw [stop_from_stopped m env h]
    exact ⟨h, by simp [List.countP_cons, Action.isStopped]⟩
  · simp [stop, enterState, enterStopped, h, List.countP_cons, Action.isStopped]

theorem stopAll_from_stopped (envs : List Env) :
    ∀ m : OrviboS20WiFiPairClass, m.m_state = State.S_STOPPED →
      (stopAll m envs).1 = m ∧ (stopAll m envs).2.countP Action.isStopped = 0 := by
  induction envs with
  | nil => intro m _; exact ⟨rfl, rfl⟩
  | cons env rest ih =>
    intro m h
    unfold stopAll
    simp only [stop_from_stopped m env h]
    obtain ⟨h1, h2⟩ := ih m h
    refine ⟨h1, ?_⟩
    rw [List.countP_append, h2]
    simp [List.countP_cons, Action.isStopped]

/-- C19: stop() in an active state sets the state to Stopped and raises the
stop notification exactly once, with REASON_STOPPED_BY_USER; stop() in state
Stopped changes nothing and raises no notification (it only repeats the WiFi
disconnect); any number of consecutive stop() calls, from any state, raises at
most one stop notification and leaves the state Stopped. -/
theorem stop_notifies_at_most_once (m : OrviboS20WiFiPairClass) (env : Env) :
    (m.m_state.isActiveState = true →
        (stop m env).1.m_state = State.S_STOPPED
        ∧ (stop m env).2
            = [Action.wifiDisconnect, Action.udpStop,
                Action.stopped OrviboStopReason.REASON_STOPPED_BY_USER m.m_stopped_cb]
        ∧ (stop m env).2.countP Action.isStopped = 1)
    ∧ (m.m_state = State.S_STOPPED →
        stop m env = (m, [Action.wifiDisconnect])
        ∧ (stop m env).2.countP Action.isStopped = 0)
    ∧ (∀ envs : List Env,
        (stopAll m envs).2.countP Action.isStopped ≤ 1
        ∧ (envs ≠ [] → (stopAll m envs).1.m_state = State.S_STOPPED)) := by
  refine ⟨?_, ?_, ?_⟩
  · intro hact
    cases hs : m.m_state <;> rw [hs] at hact <;>
      simp [State.isActiveState] at hact <;>
      simp [stop, enterState, enterStopped, hs, stopReason, List.countP_cons,
        Action.isStopped]
  · intro hs
    rw [stop_from_stopped m env hs]
    exact ⟨rfl, by simp [List.countP_cons, Action.isStopped]⟩
  · intro envs
    cases envs with
    | nil => exact ⟨by simp [stopAll], fun h => absurd rfl h⟩
    | cons e rest =>
      obtain ⟨h1, h2⟩ := stop_state m e
      obtain ⟨r1, r2⟩ := stopAll_from_stopped rest (stop m e).1 h1
      unfold stopAll
      simp only []
      refine ⟨?_, fun _ => ?_⟩
      · rw [List.countP_append, r2]
        omega
      · rw [r1]
        exact h1

/-- Witness for C19: a machine stopped three times in a row from state Scan
raises at most one stop notification. -/
theorem stop_notifies_at_most_once_witness :
    (stop (machineIn State.S_SCAN 0 0 0) (envWith none none)).2.countP Action.isStopped = 1
    ∧ (stopAll (machineIn State.S_SCAN 0 0 0)
        [envWith none none, envWith none none, envWith none none]).2.countP
          Action.isStopped ≤ 1 :=
  ⟨((stop_notifies_at_most_once (machineIn State.S_SCAN 0 0 0) (envWith none none)).1
      rfl).2.2,
    ((stop_notifies_at_most_once (machineIn State.S_SCAN 0 0 0) (envWith none none)).2.2
      [envWith none none, envWith none none, envWith none none]).1⟩

theorem handle_stopped (m : OrviboS20WiFiPairClass) (env : Env)
    (h : m.m_state = State.S_STOPPED) :
    (handle m env).1.m_state = State.S_STOPPED
    ∧ (handle m env).2 = (checkRxPacket m env.pending).2 := by
  unfold handle executeState
  simp [h]

theorem handleAll_stopped (envs : List Env) :
    ∀ m : OrviboS20WiFiPairClass, m.m_state = State.S_STOPPED →
      (handleAll m envs).1.m_state = State.S_STOPPED
      ∧ (handleAll m envs).2.countP Action.isCommand = 0
      ∧ (handleAll m envs).2.countP Action.isStopped = 0 := by
  induction envs with
  | nil => intro m h; exact ⟨h, rfl, rfl⟩
  | cons env rest ih =>
    intro m h
    obtain ⟨h1, h2⟩ := handle_stopped m env h
    obtain ⟨r1, r2, r3⟩ := ih (handle m env).1 h1
    unfold handleAll
    simp only []
    refine ⟨r1, ?_, ?_⟩
    · rw [List.countP_append, r2, h2, countP_ack m env.pending Action.isCommand rfl]
    · rw [List.countP_append, r3, h2, countP_ack m env.pending Action.isStopped rfl]

/-- C14: in SendCommands with the global deadline not expired, for every
current command and retransmit counter, a datagram that checkRxPacket
classifies as an error token makes executeState return Stopped in that tick;
the tick performs the WiFi disconnect, the socket stop and the stop
notification, once, and sends no command; after it every further sequence of
handle() calls leaves the state Stopped and sends no command. -/
theorem error_token_stops_without_command (m : OrviboS20WiFiPairClass) (env : Env)
    (hstate : m.m_state = State.S_SEND_COMMANDS)
    (herr : (checkRxPacket m env.pending).1 = PacketType.PKT_ERROR)
    (hglobal : 0 < (tickTimers m env.clock).m_tmo_timer) :
    (executeState m env m.m_state).ret = State.S_STOPPED
    ∧ (∃ reason, (executeState m env m.m_state).actions
          = [Action.wifiDisconnect, Action.udpStop,
              Action.stopped reason m.m_stopped_cb])
    ∧ (executeState m env m.m_state).actions.countP Action.isStopped = 1
    ∧ (executeState m env m.m_state).actions.countP Action.isCommand = 0
    ∧ (handle m env).1.m_state = State.S_STOPPED
    ∧ ∀ envs : List Env,
        (handleAll (handle m env).1 envs).1.m_state = State.S_STOPPED
        ∧ (handleAll (handle m env).1 envs).2.countP Action.isCommand = 0 := by
  have hng : ¬ (tickTimers m env.clock).m_tmo_timer ≤ 0 := by omega
  have hack : (checkRxPacket m env.pending).2 = [] :=
    (checkRxPacket_actions m env.pending).2 (by rw [herr]; decide)
  obtain ⟨f1, _, _, _, _, f6, _⟩ := tickTimers_fields m env.clock
  have hex : (executeState m env m.m_state).ret = State.S_STOPPED
      ∧ (executeState m env m.m_state).actions
          = [Action.wifiDisconnect, Action.udpStop,
              Action.stopped OrviboStopReason.REASON_STOPPED_BY_USER m.m_stopped_cb] := by
    unfold executeState
    simp [hstate, hng, herr, hack, enterState, enterStopped, Result.after, f1, f6,
      stopReason]
  have hst : (handle m env).1.m_state = State.S_STOPPED := by
    unfold handle
    exact hex.1
  refine ⟨hex.1, ⟨_, hex.2⟩, ?_, ?_, hst, ?_⟩
  · rw [hex.2]
    simp [List.countP_cons, Action.isStopped]
  · rw [hex.2]
    simp [List.countP_cons, Action.isCommand]
  · intro envs
    obtain ⟨r1, r2, _⟩ := handleAll_stopped envs (handle m env).1 hst
    exact ⟨r1, r2⟩

/-- Witness for C14: the machine waits for the answer to set-SSID and receives
"+err=-1"; two more ticks follow. -/
theorem error_token_stops_without_command_witness :
    (handle (machineIn State.S_SEND_COMMANDS 1 0 3)
        (envWith (some ['+', 'e', 'r', 'r', '=', '-', '1']) none)).1.m_state
      = State.S_STOPPED
    ∧ (handleAll (handle (machineIn State.S_SEND_COMMANDS 1 0 3)
        (envWith (some ['+', 'e', 'r', 'r', '=', '-', '1']) none)).1
        [envWith none none, envWith (some ['+', 'o', 'k']) none]).2.countP
          Action.isCommand = 0 :=
  ⟨(error_token_stops_without_command (machineIn State.S_SEND_COMMANDS 1 0 3)
      (envWith (some ['+', 'e', 'r', 'r', '=', '-', '1']) none) rfl (by decide)
      (by decide)).2.2.2.2.1,
    ((error_token_stops_without_command (machineIn State.S_SEND_COMMANDS 1 0 3)
      (envWith (some ['+', 'e', 'r', 'r', '=', '-', '1']) none) rfl (by decide)
      (by decide)).2.2.2.2.2 [envWith none none, envWith (some ['+', 'o', 'k']) none]).2⟩

/-- C15: in every active state (Idle, Scan, Connect, SendCommands), whatever
datagram is pending and whatever the scan and association status, if the
global countdown is not positive after the timer update of the tick,
executeState returns Stopped; besides what checkRxPacket did before the
check, the tick only disconnects, stops the socket and raises the stop
notification: no scan start, no association, no found-device or success
notification, no command; current command and retransmit counter are
unchanged. -/
theorem global_deadline_preempts_state_logic (m : OrviboS20WiFiPairClass) (env : Env)
    (hact : m.m_state.isActiveState = true)
    (hg : (tickTimers m env.clock).m_tmo_timer ≤ 0) :
    (executeState m env m.m_state).ret = State.S_STOPPED
    ∧ (∃ reason, (executeState m env m.m_state).actions
          = (checkRxPacket m env.pending).2
            ++ [Action.wifiDisconnect, Action.udpStop,
                Action.stopped reason m.m_stopped_cb])
    ∧ (∀ a ∈ (executeState m env m.m_state).actions, a.isStateLocal = false)
    ∧ (executeState m env m.m_state).self.m_current_cmd = m.m_current_cmd
    ∧ (executeState m env m.m_state).self.m_cmd_retransmit_counter
        = m.m_cmd_retransmit_counter
    ∧ (handle m env).1.m_state = State.S_STOPPED := by
  obtain ⟨f1, f2, f3, _, _, f6, _⟩ := tickTimers_fields m env.clock
  have hne : m.m_state ≠ State.S_STOPPED := by
    intro h
    rw [h] at hact
    exact Bool.noConfusion hact
  have hex : (executeState m env m.m_state)
      = ⟨tickTimers m env.clock, State.S_STOPPED,
          (checkRxPacket m env.pending).2
            ++ [Action.wifiDisconnect, Action.udpStop,
                Action.stopped (stopReason m.m_state) m.m_stopped_cb]⟩ := by
    unfold executeState
    simp [hne, hg, enterState, enterStopped, Result.after, f1, f6]
  have hst : (handle m env).1.m_state = State.S_STOPPED := by
    unfold handle
    rw [hex]
  rw [hex]
  refine ⟨rfl, ⟨_, rfl⟩, ?_, f2, f3, hst⟩
  intro a ha
  simp only [List.mem_append, List.mem_cons, List.mem_singleton] at ha
  rcases ha with ha | ha | ha | ha | ha
  · rcases (checkRxPacket_actions m env.pending).1 with h | ⟨h, _⟩
    · rw [h] at ha
      simp at ha
    · rw [h] at ha
      simp only [List.mem_singleton] at ha
      subst ha
      rfl
  · subst ha; rfl
  · subst ha; rfl
  · subst ha; rfl
  · simp at ha

/-- Witness for C15: in Connect with the association already up, an expired
global countdown stops the machine instead of starting the command sequence. -/
theorem global_deadline_preempts_state_logic_witness :
    (executeState
        { machineIn State.S_CONNECT 0 0 5 with m_tmo_timer := 0 }
        { envWith none none with isConnected := true } State.S_CONNECT).ret
      = State.S_STOPPED :=
  (global_deadline_preempts_state_logic
    { machineIn State.S_CONNECT 0 0 5 with m_tmo_timer := 0 }
    { envWith none none with isConnected := true } rfl (by decide)).1

theorem sendCommand_congr (m m2 : OrviboS20WiFiPairClass) (c : Nat)
    (h1 : m2.m_ssid = m.m_ssid) (h2 : m2.m_passphrase = m.m_passphrase)
    (h3 : m2.m_sending_cmd_cb = m.m_sending_cmd_cb) :
    sendCommand m2 c = sendCommand m c := by
  unfold sendCommand commandText
  rw [h1, h2, h3]

theorem retransmit_tick (m : OrviboS20WiFiPairClass) (env : Env)
    (hstate : m.m_state = State.S_SEND_COMMANDS) (hp : env.pending = none)
    (hexp : (tickTimers m env.clock).m_state_timer ≤ 0)
    (hg : 0 < (tickTimers m env.clock).m_tmo_timer)
    (hcmd : m.m_current_cmd ≠ CMD_Z) :
    (m.m_cmd_retransmit_counter < 2 →
      (handle m env).1.m_state = State.S_SEND_COMMANDS
      ∧ (handle m env).2 = sendCommand m m.m_current_cmd
      ∧ (handle m env).1.m_current_cmd = m.m_current_cmd
      ∧ (handle m env).1.m_cmd_retransmit_counter = m.m_cmd_retransmit_counter + 1
      ∧ (handle m env).1.m_state_timer ≤ 0
      ∧ (handle m env).1.m_ssid = m.m_ssid
      ∧ (handle m env).1.m_passphrase = m.m_passphrase
      ∧ (handle m env).1.m_sending_cmd_cb = m.m_sending_cmd_cb)
    ∧ (¬ m.m_cmd_retransmit_counter < 2 →
      (handle m env).1.m_state = State.S_SCAN
      ∧ (handle m env).2 = [Action.wifiScanNetworks]) := by
  have hng : ¬ (tickTimers m env.clock).m_tmo_timer ≤ 0 := by omega
  obtain ⟨_, f2, f3, _, f5, _, _, f8, f9, _, _⟩ := tickTimers_fields m env.clock
  constructor
  · intro hc
    unfold handle executeState
    simp only [hstate, hp, checkRxPacket_none]
    simp [hng, hexp, hc, hcmd, f2, f3, f5, f8, f9, sendCommand, commandText]
  · intro hc
    unfold handle executeState
    simp only [hstate, hp, checkRxPacket_none]
    simp [hng, hexp, hc, f3, enterState, Result.after]

/-- C16: in SendCommands with a current command other than AT+Z, retransmit
counter 0, no datagram pending and the global deadline not expired: on the
first tick at which the per-command countdown is expired the same command is
sent again (one sending-command notification followed by one broadcast of the
text of the current command, and nothing else) and the state stays SendCommands
(counter 1); on the next tick the same again (counter 2); on the tick after
that no command is sent and the machine enters Scan (a scan is started). The
countdown is still expired on the second and third of these ticks, since
nothing resets it. The text sent is "HF-A11ASSISTHREAD" for the identify
command, "AT+WSSSID=<ssid>\r" for set-SSID, "AT+WSKEY=OPEN,NONE,\r" or
"AT+WSKEY=WPA2PSK,AES,<passphrase>\r" for set-key and "AT+WMODE=STA\r" for
set-station-mode. -/
theorem two_retransmissions_then_scan (m : OrviboS20WiFiPairClass) (env1 env2 env3 : Env)
    (hstate : m.m_state = State.S_SEND_COMMANDS) (hcmd : m.m_current_cmd ≠ CMD_Z)
    (hcnt : m.m_cmd_retransmit_counter = 0)
    (hp1 : env1.pending = none) (hp2 : env2.pending = none) (hp3 : env3.pending = none)
    (hexp : (tickTimers m env1.clock).m_state_timer ≤ 0)
    (hg1 : 0 < (tickTimers m env1.clock).m_tmo_timer)
    (hg2 : 0 < (tickTimers (handle m env1).1 env2.clock).m_tmo_timer)
    (hg3 : 0 < (tickTimers (handle (handle m env1).1 env2).1 env3.clock).m_tmo_timer) :
    ((handle m env1).1.m_state = State.S_SEND_COMMANDS
      ∧ (handle m env1).2 = sendCommand m m.m_current_cmd
      ∧ (handle m env1).1.m_current_cmd = m.m_current_cmd
      ∧ (handle m env1).1.m_cmd_retransmit_counter = 1
      ∧ (handle m env1).2
          = [Action.sendingCommand (commandText m m.m_current_cmd) m.m_sending_cmd_cb,
              Action.sendString (commandText m m.m_current_cmd)]
      ∧ (handle m env1).2.countP Action.isCommand = 1)
    ∧ ((tickTimers (handle m env1).1 env2.clock).m_state_timer ≤ 0
      ∧ (handle (handle m env1).1 env2).1.m_state = State.S_SEND_COMMANDS
      ∧ (handle (handle m env1).1 env2).2 = sendCommand m m.m_current_cmd
      ∧ (handle (handle m env1).1 env2).1.m_current_cmd = m.m_current_cmd
      ∧ (handle (handle m env1).1 env2).1.m_cmd_retransmit_counter = 2
      ∧ (handle (handle m env1).1 env2).2
          = [Action.sendingCommand (commandText m m.m_current_cmd) m.m_sending_cmd_cb,
              Action.sendString (commandText m m.m_current_cmd)]
      ∧ (handle (handle m env1).1 env2).2.countP Action.isCommand = 1)
    ∧ ((tickTimers (handle (handle m env1).1 env2).1 env3.clock).m_state_timer ≤ 0
      ∧ (handle (handle (handle m env1).1 env2).1 env3).1.m_state = State.S_SCAN
      ∧ (handle (handle (handle m env1).1 env2).1 env3).2 = [Action.wifiScanNetworks]
      ∧ (handle (handle (handle m env1).1 env2).1 env3).2.countP Action.isCommand = 0)
    ∧ ((m.m_current_cmd = CMD_ASSISTTHREAD →
          commandText m m.m_current_cmd = "HF-A11ASSISTHREAD")
      ∧ (m.m_current_cmd = CMD_SSID →
          commandText m m.m_current_cmd = "AT+WSSSID=" ++ m.m_ssid ++ "\r")
      ∧ (m.m_current_cmd = CMD_KEY → m.m_passphrase = "" →
          commandText m m.m_current_cmd = "AT+WSKEY=OPEN,NONE,\r")
      ∧ (m.m_current_cmd = CMD_KEY → m.m_passphrase ≠ "" →
          commandText m m.m_current_cmd
            = "AT+WSKEY=" ++ ("WPA2PSK,AES," ++ m.m_passphrase ++ "\r"))
      ∧ (m.m_current_cmd = CMD_MODE →
          commandText m m.m_current_cmd = "AT+WMODE=STA\r")) := by
  obtain ⟨a1, a2, a3, a4, a5, a6, a7, a8⟩ :=
    (retransmit_tick m env1 hstate hp1 hexp hg1 hcmd).1 (by rw [hcnt]; decide)
  have e2 : (tickTimers (handle m env1).1 env2.clock).m_state_timer ≤ 0 :=
    le_trans (tickTimers_fields _ _).2.2.2.2.2.2.2.2.2.1 a5
  obtain ⟨b1, b2, b3, b4, b5, b6, b7, b8⟩ :=
    (retransmit_tick (handle m env1).1 env2 a1 hp2 e2 hg2 (by rw [a3]; exact hcmd)).1
      (by rw [a4, hcnt]; decide)
  have e3 : (tickTimers (handle (handle m env1).1 env2).1 env3.clock).m_state_timer ≤ 0 :=
    le_trans (tickTimers_fields _ _).2.2.2.2.2.2.2.2.2.1 b5
  obtain ⟨c1, c2⟩ :=
    (retransmit_tick (handle (handle m env1).1 env2).1 env3 b1 hp3 e3 hg3
      (by rw [b3, a3]; exact hcmd)).2 (by rw [b4, a4, hcnt]; decide)
  have b2m : (handle (handle m env1).1 env2).2 = sendCommand m m.m_current_cmd := by
    rw [b2, a3]
    exact sendCommand_congr m (handle m env1).1 m.m_current_cmd a6 a7 a8
  have hsend : sendCommand m m.m_current_cmd
      = [Action.sendingCommand (commandText m m.m_current_cmd) m.m_sending_cmd_cb,
          Action.sendString (commandText m m.m_current_cmd)] := rfl
  have hcount : (sendCommand m m.m_current_cmd).countP Action.isCommand = 1 := by
    rw [hsend]
    simp [List.countP_cons, Action.isCommand]
  refine ⟨⟨a1, a2, a3, by rw [a4, hcnt]; rfl, by rw [a2, hsend], by rw [a2, hcount]⟩,
    ⟨e2, b1, b2m, by rw [b3, a3], ?_, by rw [b2m, hsend], by rw [b2m, hcount]⟩,
    ⟨e3, c1, c2, ?_⟩, ?_⟩
  · rw [b4, a4, hcnt]; rfl
  · rw [c2]; rfl
  · refine ⟨?_, ?_, ?_, ?_, ?_⟩
    · intro h
      rw [h]
      rfl
    · intro h
      rw [h]
      rfl
    · intro h hpass
      rw [h]
      simp [commandText, CMD_KEY, CMD_ASSISTTHREAD, CMD_FIRST, CMD_SSID, hpass]
    · intro h hpass
      rw [h]
      simp [commandText, CMD_KEY, CMD_ASSISTTHREAD, CMD_FIRST, CMD_SSID, hpass]
    · intro h
      rw [h]
      rfl

/-- Witness for C16: the machine waits for the answer to set-SSID (target
network "home") with the per-command countdown at 0; three ticks without a
datagram follow: "AT+WSSSID=home\r" is sent on the first and on the second, the
third starts a scan and sends nothing. -/
theorem two_retransmissions_then_scan_witness :
    (handle (machineIn State.S_SEND_COMMANDS 1 0 0) (envWith none none)).2
      = [Action.sendingCommand ("AT+WSSSID=home\r") false,
          Action.sendString ("AT+WSSSID=home\r")]
    ∧ (handle (handle (machineIn State.S_SEND_COMMANDS 1 0 0) (envWith none none)).1
        (envWith none none)).2
      = [Action.sendingCommand ("AT+WSSSID=home\r") false,
          Action.sendString ("AT+WSSSID=home\r")]
    ∧ (handle (handle (handle (machineIn State.S_SEND_COMMANDS 1 0 0) (envWith none none)).1
        (envWith none none)).1 (envWith none none)).1.m_state = State.S_SCAN
    ∧ (handle (handle (handle (machineIn State.S_SEND_COMMANDS 1 0 0) (envWith none none)).1
        (envWith none none)).1 (envWith none none)).2 = [Action.wifiScanNetworks] := by
  have h := two_retransmissions_then_scan (machineIn State.S_SEND_COMMANDS 1 0 0)
    (envWith none none) (envWith none none) (envWith none none)
    rfl (by decide) rfl rfl rfl rfl (by decide) (by decide) (by decide) (by decide)
  refine ⟨?_, ?_, h.2.2.1.2.1, h.2.2.1.2.2.1⟩
  · rw [h.1.2.2.2.2.1]
    decide
  · rw [h.2.1.2.2.2.2.2.1]
    decide

theorem ack_tick (m : OrviboS20WiFiPairClass) (env : Env)
    (hstate : m.m_state = State.S_SEND_COMMANDS)
    (hok : (checkRxPacket m env.pending).1 = PacketType.PKT_OK)
    (hg : 0 < (tickTimers m env.clock).m_tmo_timer)
    (hnext : m.m_current_cmd + 1 ≠ CMD_LAST) :
    (handle m env).1.m_state = State.S_SEND_COMMANDS
    ∧ (handle m env).2
        = (checkRxPacket m env.pending).2 ++ sendCommand m (m.m_current_cmd + 1)
    ∧ (handle m env).1.m_current_cmd = m.m_current_cmd + 1
    ∧ (handle m env).1.m_cmd_retransmit_counter = 0
    ∧ (handle m env).1.m_state_timer = (tickTimers m env.clock).m_state_timer := by
  have hng : ¬ (tickTimers m env.clock).m_tmo_timer ≤ 0 := by omega
  obtain ⟨_, f2, _, _, f5, _, _, f8, f9, _, _⟩ := tickTimers_fields m env.clock
  unfold handle executeState
  simp [hstate, hok, hng, f2, hnext, f5, f8, f9, sendCommand, commandText]

/-- C17 (code at the failing input): in SendCommands, waiting for the answer to
the identify command with the per-command countdown at 1, the datagram "+ok"
advances to set-SSID, sends it and leaves the retransmit counter at 0, but the
countdown m_state_timer is still 1 afterwards, not COMMAND_TIMEOUT_S = 3; for
every machine and tick in which an affirmative acknowledgment advances the
command, m_state_timer after the tick is what the timer update of the tick left,
since the code assigns the local flag `state_timeout` and never m_state_timer. -/
theorem ack_does_not_reset_command_countdown :
    (handle (machineIn State.S_SEND_COMMANDS 0 0 1)
        (envWith (some ['+', 'o', 'k']) none)).1.m_state_timer = 1
    ∧ (handle (machineIn State.S_SEND_COMMANDS 0 0 1)
        (envWith (some ['+', 'o', 'k']) none)).1.m_current_cmd = CMD_SSID
    ∧ (handle (machineIn State.S_SEND_COMMANDS 0 0 1)
        (envWith (some ['+', 'o', 'k']) none)).1.m_cmd_retransmit_counter = 0
    ∧ (handle (machineIn State.S_SEND_COMMANDS 0 0 1)
        (envWith (some ['+', 'o', 'k']) none)).2
        = sendCommand (machineIn State.S_SEND_COMMANDS 0 0 1) CMD_SSID
    ∧ COMMAND_TIMEOUT_S = 3
    ∧ ∀ (m : OrviboS20WiFiPairClass) (env : Env), m.m_state = State.S_SEND_COMMANDS →
        (checkRxPacket m env.pending).1 = PacketType.PKT_OK →
        0 < (tickTimers m env.clock).m_tmo_timer → m.m_current_cmd + 1 ≠ CMD_LAST →
        (handle m env).1.m_state_timer = (tickTimers m env.clock).m_state_timer
        ∧ (handle m env).1.m_state_timer ≤ m.m_state_timer := by
  refine ⟨by decide, by decide, by decide, by decide, rfl, ?_⟩
  intro m env hstate hok hg hnext
  have h := (ack_tick m env hstate hok hg hnext).2.2.2.2
  refine ⟨h, ?_⟩
  rw [h]
  exact (tickTimers_fields m env.clock).2.2.2.2.2.2.2.2.2.1

/-- C18 (counterexample): in SendCommands, waiting for the answer to
set-station-mode, the datagram "+ok" makes the tick send AT+Z for the first
time; the machine stays in SendCommands and no success notification is raised. -/
theorem first_commit_send_does_not_complete :
    (handle (machineIn State.S_SEND_COMMANDS 3 0 3)
        (envWith (some ['+', 'o', 'k']) none)).2
      = [Action.sendingCommand TXT_Z false, Action.sendString TXT_Z]
    ∧ (handle (machineIn State.S_SEND_COMMANDS 3 0 3)
        (envWith (some ['+', 'o', 'k']) none)).1.m_state = State.S_SEND_COMMANDS
    ∧ (handle (machineIn State.S_SEND_COMMANDS 3 0 3)
        (envWith (some ['+', 'o', 'k']) none)).2.countP Action.isSuccess = 0 := by
  refine ⟨by decide, by decide, by decide⟩

/-- C18 (amended): in SendCommands with the global deadline not expired, a tick
that sends AT+Z as a retransmission (no acknowledgment and no error pending,
per-command countdown expired, retransmit counter below 2, current command
AT+Z) sends it, raises the success notification and ends in Stopped in that
same tick; a tick that sends AT+Z for the first time (affirmative
acknowledgment while the current command is set-station-mode) makes AT+Z the
current command with retransmit counter 0, stays in SendCommands and raises no
success notification. -/
theorem commit_completes_on_retransmission_only (m : OrviboS20WiFiPairClass) (env : Env)
    (hstate : m.m_state = State.S_SEND_COMMANDS)
    (hg : 0 < (tickTimers m env.clock).m_tmo_timer) :
    ((checkRxPacket m env.pending).1 ≠ PacketType.PKT_OK →
      (checkRxPacket m env.pending).1 ≠ PacketType.PKT_ERROR →
      (tickTimers m env.clock).m_state_timer ≤ 0 →
      m.m_cmd_retransmit_counter < 2 → m.m_current_cmd = CMD_Z →
      (handle m env).1.m_state = State.S_STOPPED
      ∧ ∃ reason, (handle m env).2
          = sendCommand m CMD_Z
            ++ [Action.success env.bssid m.m_success_cb, Action.wifiDisconnect,
                Action.udpStop, Action.stopped reason m.m_stopped_cb])
    ∧ ((checkRxPacket m env.pending).1 = PacketType.PKT_OK →
      m.m_current_cmd = CMD_MODE →
      (handle m env).1.m_state = State.S_SEND_COMMANDS
      ∧ (handle m env).2 = (checkRxPacket m env.pending).2 ++ sendCommand m CMD_Z
      ∧ (handle m env).1.m_current_cmd = CMD_Z
      ∧ (handle m env).1.m_cmd_retransmit_counter = 0
      ∧ (handle m env).2.countP Action.isSuccess = 0) := by
  have hng : ¬ (tickTimers m env.clock).m_tmo_timer ≤ 0 := by omega
  obtain ⟨f1, f2, f3, _, f5, f6, f7, f8, f9, _, _⟩ := tickTimers_fields m env.clock
  constructor
  · intro hnok hnerr hexp hcnt hz
    have hack : (checkRxPacket m env.pending).2 = [] :=
      (checkRxPacket_actions m env.pending).2 hnok
    refine ⟨?_, OrviboStopReason.REASON_STOPPED_BY_USER, ?_⟩
    · unfold handle executeState
      simp [hstate, hng, hnok, hnerr, hexp, hcnt, hz, f2, f3, enterState, enterStopped,
        Result.after, f1]
    · unfold handle executeState
      simp [hstate, hng, hnok, hnerr, hexp, hcnt, hz, f2, f3, f5, f6, f7, f8, f9,
        enterState, enterStopped, Result.after, f1, hack, sendCommand, commandText,
        stopReason]
  · intro hok hmode
    have hnext : m.m_current_cmd + 1 ≠ CMD_LAST := by rw [hmode]; decide
    obtain ⟨a1, a2, a3, a4, _⟩ := ack_tick m env hstate hok hg hnext
    have hz : m.m_current_cmd + 1 = CMD_Z := by rw [hmode]; rfl
    rw [hz] at a2 a3
    refine ⟨a1, a2, a3, a4, ?_⟩
    rw [a2, List.countP_append, countP_ack m env.pending Action.isSuccess rfl]
    simp [sendCommand, List.countP_cons, Action.isSuccess]

/-- Witness for C18 (amended): AT+Z is the current command, the per-command
countdown is 0 and no datagram is pending: the tick ends in Stopped. -/
theorem commit_completes_on_retransmission_only_witness :
    (handle (machineIn State.S_SEND_COMMANDS 4 0 0) (envWith none none)).1.m_state
      = State.S_STOPPED :=
  ((commit_completes_on_retransmission_only (machineIn State.S_SEND_COMMANDS 4 0 0)
    (envWith none none) rfl (by decide)).1 (by decide) (by decide) (by decide)
    (by decide) rfl).1

end OrviboS20WiFiPair

namespace OrviboS20

/-! ## Encoder and decoder together -/

theorem be16_split (t : Nat) (h : t < 65536) :
    256 * (u8 (t >>> 8)).val + (u8 t).val = t := by
  have h1 : (u8 (t >>> 8)).val = (t >>> 8) % 256 := rfl
  have h2 : (u8 t).val = t % 256 := rfl
  rw [h1, h2, Nat.shiftRight_eq_div_pow]
  norm_num
  omega

theorem sendCommand_bytes (d : OrviboS20Device) (command : Nat) (payload : List Byte) :
    (sendCommand d command payload payload.length).bytes
      = 0x68 :: 0x64 :: u8 (u16 (18 + payload.length) >>> 8) :: u8 (u16 (18 + payload.length))
        :: u8 (command >>> 8) :: u8 command
        :: d.m_mac.b0 :: d.m_mac.b1 :: d.m_mac.b2 :: d.m_mac.b3 :: d.m_mac.b4 :: d.m_mac.b5
        :: 0x20 :: 0x20 :: 0x20 :: 0x20 :: 0x20 :: 0x20 :: payload := by
  simp [sendCommand, ORVIBO_MAGIC, ORVIBO_HEADER_LEN, Mac.toList, MAC_PADDING]

/-- C21: for every command code (16 bits) other than 0x7161, every device MAC
and every payload of at most 46 bytes, the datagram written by sendCommand has
18 + payload length bytes, fits the 64-byte receive buffer, passes the
validation of checkRxPacket, and is decoded to the same command, with the
sender MAC read at offset 6 equal to the device MAC and the payload slice
(offset 18, length payload length) equal to the payload written. -/
theorem sendCommand_parseFrame_roundtrip (d : OrviboS20Device) (command : Nat)
    (payload : List Byte) (hcmd16 : command < 65536) (hcmd : command ≠ 0x7161)
    (hlen : payload.length ≤ 46) :
    (sendCommand d command payload payload.length).bytes.length = 18 + payload.length
    ∧ (sendCommand d command payload payload.length).bytes.take 64
        = (sendCommand d command payload payload.length).bytes
    ∧ ValidFrame (sendCommand d command payload payload.length).bytes
    ∧ parseFrame ((sendCommand d command payload payload.length).bytes.take 64)
        = some ⟨command, 6, 18, payload.length⟩
    ∧ readMac (sendCommand d command payload payload.length).bytes 6 = d.m_mac
    ∧ (sendCommand d command payload payload.length).bytes.drop 18 = payload
    ∧ ((sendCommand d command payload payload.length).bytes.drop 18).length
        = payload.length := by
  have hb := sendCommand_bytes d command payload
  have hl : (sendCommand d command payload payload.length).bytes.length
      = 18 + payload.length := by
    rw [hb]
    simp only [List.length_cons]
    omega
  have htake : (sendCommand d command payload payload.length).bytes.take 64
      = (sendCommand d command payload payload.length).bytes :=
    List.take_of_length_le (by omega)
  have htot : u16 (18 + payload.length) = 18 + payload.length := by
    unfold u16
    omega
  have hv : ValidFrame (sendCommand d command payload payload.length).bytes := by
    refine ⟨by omega, ?_, ?_, ?_⟩
    · rw [hb]; rfl
    · rw [hb]; rfl
    · rw [hl]
      have h23 : 256 * (rxByte (sendCommand d command payload payload.length).bytes 2).val
          + (rxByte (sendCommand d command payload payload.length).bytes 3).val
          = 256 * (u8 (u16 (18 + payload.length) >>> 8)).val
            + (u8 (u16 (18 + payload.length))).val := by
        rw [hb]; rfl
      rw [h23, be16_split _ (by rw [htot]; omega), htot]
  have h45 : 256 * (rxByte (sendCommand d command payload payload.length).bytes 4).val
      + (rxByte (sendCommand d command payload payload.length).bytes 5).val = command := by
    have : 256 * (rxByte (sendCommand d command payload payload.length).bytes 4).val
        + (rxByte (sendCommand d command payload payload.length).bytes 5).val
        = 256 * (u8 (command >>> 8)).val + (u8 command).val := by
      rw [hb]; rfl
    rw [this, be16_split command hcmd16]
  refine ⟨hl, htake, hv, ?_, ?_, ?_, ?_⟩
  · rw [htake, parseFrame_of_valid _ hv, h45, hl]
    have hnd : ¬ command = CMD_DISCOVER := hcmd
    rw [if_neg hnd]
    simp
  · rw [hb]
    rfl
  · rw [hb]
    rfl
  · rw [hb]
    rfl

/-- Witness for C21: the set-state command with its 5-byte payload. -/
theorem sendCommand_parseFrame_roundtrip_witness :
    parseFrame ((sendCommand (OrviboS20Device.withMac ⟨0xAC, 0xCF, 0x23, 1, 2, 3⟩)
        0x6463 [0, 0, 0, 0, 1] 5).bytes.take 64) = some ⟨0x6463, 6, 18, 5⟩ :=
  (sendCommand_parseFrame_roundtrip (OrviboS20Device.withMac ⟨0xAC, 0xCF, 0x23, 1, 2, 3⟩)
    0x6463 [0, 0, 0, 0, 1] (by decide) (by decide) (by decide)).2.2.2.1

/-! ## Payload slice and reported relay state -/

theorem parseFrame_slices (rx : List Byte) (fr : Frame) (h : parseFrame rx = some fr) :
    fr.src_mac_off + 6 ≤ rx.length
    ∧ (¬ (fr.cmd = CMD_DISCOVER ∧ rx.length = 18) →
        fr.payload_off + fr.payload_length = rx.length)
    ∧ ((fr.cmd = CMD_DISCOVER ∧ rx.length = 18) →
        fr.payload_off = 19 ∧ fr.payload_length = 4294967295) := by
  have hv : ValidFrame rx := by
    by_contra hn
    rw [(parseFrame_eq_none_iff rx).mpr hn] at h
    exact Option.noConfusion h
  have hlen := hv.1
  have h16 : rx.length < 65536 := by
    have := hv.2.2.2
    have h2 : (rxByte rx 2).val < 256 := (rxByte rx 2).isLt
    have h3 : (rxByte rx 3).val < 256 := (rxByte rx 3).isLt
    omega
  rw [parseFrame_of_valid rx hv] at h
  by_cases hc : 256 * (rxByte rx 4).val + (rxByte rx 5).val = CMD_DISCOVER
  · rw [if_pos hc] at h
    have hfr := (Option.some.inj h).symm
    subst hfr
    simp only []
    refine ⟨by omega, ?_, ?_⟩
    · intro hn
      have hgt : rx.length ≠ 18 := fun h18 => hn ⟨hc, h18⟩
      norm_num
      omega
    · intro h18
      refine ⟨by simp, ?_⟩
      rw [h18.2]
      norm_num
  · rw [if_neg hc] at h
    have hfr := (Option.some.inj h).symm
    subst hfr
    simp only []
    refine ⟨by omega, ?_, ?_⟩
    · intro _
      omega
    · intro h18
      exact absurd h18.1 hc

/-- C22 (code at the failing input): the 18-byte frame 68 64 00 12 71 61
01 02 03 04 05 06 20 20 20 20 20 20 passes validation and carries the discovery
command; checkRxPacket then points the payload at offset 19, past the 18 bytes
received, with payload length 0 - 1 = 4294967295 as a 32-bit size_t, so offset
plus length is not the received length. For every other accepted frame the
payload slice ends exactly at the received length, and the 6-byte MAC slice
ends inside the received bytes for every accepted frame. -/
theorem discovery_frame_of_18_bytes_underflows :
    ValidFrame [0x68, 0x64, 0x00, 0x12, 0x71, 0x61, 1, 2, 3, 4, 5, 6,
        0x20, 0x20, 0x20, 0x20, 0x20, 0x20]
    ∧ parseFrame [0x68, 0x64, 0x00, 0x12, 0x71, 0x61, 1, 2, 3, 4, 5, 6,
        0x20, 0x20, 0x20, 0x20, 0x20, 0x20]
      = some ⟨0x7161, 7, 19, 4294967295⟩
    ∧ (∀ fr : Frame, parseFrame [0x68, 0x64, 0x00, 0x12, 0x71, 0x61, 1, 2, 3, 4, 5, 6,
          0x20, 0x20, 0x20, 0x20, 0x20, 0x20] = some fr →
        fr.payload_off + fr.payload_length ≠ 18 ∧ 18 < fr.payload_off)
    ∧ (∀ (rx : List Byte) (fr : Frame), parseFrame rx = some fr →
        ¬ (fr.cmd = 0x7161 ∧ rx.length = 18) →
        fr.payload_off + fr.payload_length = rx.length)
    ∧ (∀ (rx : List Byte) (fr : Frame), parseFrame rx = some fr →
        fr.src_mac_off + 6 ≤ rx.length) := by
  have hp : parseFrame [0x68, 0x64, 0x00, 0x12, 0x71, 0x61, 1, 2, 3, 4, 5, 6,
        0x20, 0x20, 0x20, 0x20, 0x20, 0x20]
      = some ⟨0x7161, 7, 19, 4294967295⟩ := by decide
  refine ⟨by decide, hp, ?_, ?_, ?_⟩
  · intro fr hfr
    rw [hp] at hfr
    rw [← Option.some.inj hfr]
    exact ⟨by decide, by decide⟩
  · intro rx fr hfr hn
    exact (parseFrame_slices rx fr hfr).2.1 hn
  · intro rx fr hfr
    exact (parseFrame_slices rx fr hfr).1

/-- C23 (code at the failing input): a state-change packet with state byte 2
on a fresh device raises the state-change notification with value true, and
getState() right afterwards returns false. In general, whenever handlePacket
raises the state-change notification with value b for a 5-byte state-change
payload, getState() afterwards returns b exactly when the state byte is 0 or 1:
the callback is given `new_state` converted to bool (non-zero), getState tests
`m_last_state == 1`. -/
theorem notified_state_disagrees_with_getState :
    (handlePacket OrviboS20Device.anyMac 5 0x7366 [0, 0, 0, 0, 2] 5).2
      = [⟨Notification.connect, false⟩, ⟨Notification.stateChange true, false⟩]
    ∧ getState (handlePacket OrviboS20Device.anyMac 5 0x7366 [0, 0, 0, 0, 2] 5).1 = false
    ∧ ∀ (d : OrviboS20Device) (clock : Nat) (payload : List Byte) (b dl : Bool),
        (⟨Notification.stateChange b, dl⟩ : Fired)
            ∈ (handlePacket d clock 0x7366 payload 5).2 →
        (getState (handlePacket d clock 0x7366 payload 5).1 = b
          ↔ (payload.getD 4 0).val ≤ 1) := by
  refine ⟨by decide, by decide, ?_⟩
  intro d clock payload b dl hmem
  rw [handlePacket_fired] at hmem
  simp only [List.mem_append] at hmem
  have hx : (payload.getD 4 0).val < 256 := (payload.getD 4 0).isLt
  rcases hmem with hmem | hmem
  · split at hmem
    · simp at hmem
    · simp at hmem
  · split at hmem
    · rename_i hcond
      simp only [List.mem_singleton] at hmem
      have hb : b = decide (((payload.getD 4 0).val : Int) ≠ 0) := by
        have := congrArg Fired.what hmem
        simp only [Notification.stateChange.injEq] at this
        exact this
      have hst : (handlePacket d clock 0x7366 payload 5).1.m_last_state
          = ((payload.getD 4 0).val : Int) := by
        unfold handlePacket
        simp only [(updateConnectState_spec _ true).1]
        have hne : ((payload.getD 4 0).val : Int) ≠ d.m_last_state := hcond.2.2
        simp [CMD_STATE_CHANGE, hne, -List.getD_eq_getElem?_getD]
      unfold getState
      rw [hst, hb]
      constructor
      · intro h
        by_contra hgt
        have h2 : 2 ≤ (payload.getD 4 0).val := by omega
        have e1 : decide (((payload.getD 4 0).val : Int) = 1) = false := by
          apply decide_eq_false
          omega
        have e2 : decide (((payload.getD 4 0).val : Int) ≠ 0) = true := by
          apply decide_eq_true
          omega
        rw [e1, e2] at h
        exact Bool.noConfusion h
      · intro hle
        rcases Nat.lt_or_ge (payload.getD 4 0).val 1 with h0 | h1
        · have hz : ((payload.getD 4 0).val : Int) = 0 := by omega
          rw [hz]
          decide
        · have ho : ((payload.getD 4 0).val : Int) = 1 := by omega
          rw [ho]
          decide
    · simp at hmem

/-! ## First contact without a found-device callback -/

/-- C8 (code at the failing input): engine as constructed by default (no
found-device callback installed, empty known-MAC list) with the devices
[bound AA:BB:CC:DD:EE:FF, wildcard] and a valid state-change frame from
01:02:03:04:05:06. The sender MAC equals the MAC field of no entry and an
unbound wildcard exists at position 1, yet checkRxPacket stops in
checkIfNewDevice at the call of the absent callback: the device list is as it
was, the wildcard is not bound and handles no packet. -/
theorem unmatched_frame_aborts_before_binding :
    parseFrame ((stateChangeFrame ⟨1, 2, 3, 4, 5, 6⟩ 1).bytes.take 64)
        = some ⟨0x7366, 6, 18, 5⟩
    ∧ readMac ((stateChangeFrame ⟨1, 2, 3, 4, 5, 6⟩ 1).bytes.take 64) 6 = ⟨1, 2, 3, 4, 5, 6⟩
    ∧ (∀ e ∈ [OrviboS20Device.withMac ⟨0xAA, 0xBB, 0xCC, 0xDD, 0xEE, 0xFF⟩,
          OrviboS20Device.anyMac], e.m_mac ≠ ⟨1, 2, 3, 4, 5, 6⟩)
    ∧ OrviboS20Device.anyMac.m_any_mac = true
    ∧ checkRxPacket
        { m_found_device_callback := false, known_orvibo_mac_list := [],
          m_device_list := [OrviboS20Device.withMac ⟨0xAA, 0xBB, 0xCC, 0xDD, 0xEE, 0xFF⟩,
            OrviboS20Device.anyMac] } 5
        (some (stateChangeFrame ⟨1, 2, 3, 4, 5, 6⟩ 1))
      = ⟨{ m_found_device_callback := false,
           known_orvibo_mac_list := [⟨1, 2, 3, 4, 5, 6⟩],
           m_device_list := [OrviboS20Device.withMac ⟨0xAA, 0xBB, 0xCC, 0xDD, 0xEE, 0xFF⟩,
             OrviboS20Device.anyMac] },
          [EngineFired.foundDevice ⟨1, 2, 3, 4, 5, 6⟩ false], true⟩ := by
  refine ⟨by decide, by decide, by decide, rfl, by decide⟩

end OrviboS20
